import Mathlib

/-!
Shallow embedding of the HybridModels chamber-pressure core:
`Injection/PyInjection.py` (Dyer injector model),
`Performance/performance_singlepoint.py` (performance snapshot and
mass-conservation residual) and `Optimization/optimization.py`
(starting-guess scan, damped Newton solver, 3D sweep driver).

Machine floats are modelled by real numbers.  The two external oracles
(CoolProp property lookups and the CEA equilibrium backend) are explicit
function parameters; a lookup failure (Python exception) is an
`Except.error`.  The division `MR = mdot_ox / mdot_fuel` raises a Python
`ZeroDivisionError` exactly when the denominator is zero, which the source
catches; this is modelled by an explicit zero test on `mdot_fuel`.
`np.argmin` over an empty array raises `ValueError`; functions that can hit
that uncaught exception return `Option`, with `none` for the raised case.
-/

namespace HybridModels

/-- Fluid property names queried through CoolProp `PropsSI`:
enthalpy `H`, density `D`, pressure `P`. -/
inductive FluidProp
  | enthalpy
  | density
  | press
deriving DecidableEq

/-- External CoolProp property oracle.  `single prop p T` is a
single-phase `(P, T)` query that may signal out-of-domain (Python
`ValueError`); `sat prop T q` is a saturated `(T, Q)` query, total on the
modelled domain. -/
structure PropOracle where
  single : FluidProp → ℝ → ℝ → Except Unit ℝ
  sat : FluidProp → ℝ → ℝ → ℝ

/-- Output record of the CEA equilibrium backend. -/
structure EqOut where
  Tc : ℝ
  MW : ℝ
  gamma : ℝ
  cs : ℝ
  CF_vac : ℝ

/-- External CEA equilibrium oracle: arguments `pc MR eps`; a signalled
failure (`IndexError` in the source) is `Except.error`. -/
def EqOracle := ℝ → ℝ → ℝ → Except Unit EqOut

/-- `PyInjection.py` lines 30-43: a single-phase `(P, T)` lookup whose
`ValueError` is caught and replaced by the saturated `(T, Q)` value. -/
def lookupPT (po : PropOracle) (prop : FluidProp) (p T q : ℝ) : ℝ :=
  match po.single prop p T with
  | .ok v => v
  | .error _ => po.sat prop T q

/-- `PyInjection.py` line 51: single-phase-incompressible flux
`cD * sqrt (2 * dSPI * (p1 - p2))` with `dSPI` the saturated-liquid
density at `T`. -/
noncomputable def spiFlux (po : PropOracle) (p1 p2 T cD : ℝ) : ℝ :=
  cD * Real.sqrt (2 * po.sat .density T 0 * (p1 - p2))

/-- `PyInjection.py` line 53: homogeneous-equilibrium flux
`cD * d2 * sqrt (2 * |h1 - h2|)` with two-phase-dome fallbacks
(h1 at quality 0, h2 and d2 at quality 1). -/
noncomputable def hemFlux (po : PropOracle) (p1 p2 T cD : ℝ) : ℝ :=
  cD * lookupPT po .density p2 T 1 *
    Real.sqrt (2 * |lookupPT po .enthalpy p1 T 0 - lookupPT po .enthalpy p2 T 1|)

/-- `Injector.massflow` (`PyInjection.py` lines 27-82): Dyer model flux.
`pV` is the saturation pressure at `T`.  Backflow (`p1 ≤ p2`) gives 0. -/
noncomputable def massflow (po : PropOracle) (p1 p2 T cD : ℝ) : ℝ :=
  let mdot_SPI := spiFlux po p1 p2 T cD
  let mdot_HEM := hemFlux po p1 p2 T cD
  let pV := po.sat .press T 1
  if p2 < p1 then
    if p2 < pV then
      let k := Real.sqrt ((p1 - p2) / (pV - p2))
      k * mdot_SPI / (k + 1) + mdot_HEM / (k + 1)
    else
      mdot_SPI
  else
    0

/-- `performance_singlepoint.py` lines 13-15: `Gammone`. -/
noncomputable def Gammone (g : ℝ) : ℝ :=
  Real.sqrt (g * (2 / (g + 1)) ^ ((g + 1) / (g - 1)))

/-- `performance_singlepoint.py` lines 17-23: isentropic area-ratio
relation `ER`; returns 1 in the subcritical regime. -/
noncomputable def ER (g pe pc : ℝ) : ℝ :=
  let pe_pc_crit := (2 / (g + 1)) ^ (g / (g - 1))
  if pe / pc < pe_pc_crit then
    Gammone g /
      Real.sqrt ((2 * g) *
        ((pe / pc) ^ (2 / g) - (pe / pc) ^ ((g + 1) / g)) / (g - 1))
  else
    1

/-- The user-supplied expansion-ratio input: the literal string `"adapt"`
or a numeric value. -/
inductive EpsInput
  | adapt
  | num (x : ℝ)

/-- The non-geometry parameters shared by every solver routine: the two
external oracles, the line-loss drop, and the operating conditions.
The line-loss collaborator (`Line_losses.linelosses`) is not part of the
analysed sources; modelled from the spec: `LineLossModel: drop() -> Pa`
(pluggable; reference behavior returns a constant, including zero), held
here as the constant `lineloss`. -/
structure Config where
  po : PropOracle
  eqo : EqOracle
  lineloss : ℝ
  eps : EpsInput
  ptank : ℝ
  Ttank : ℝ
  CD : ℝ
  a : ℝ
  n : ℝ
  rho_fuel : ℝ
  pamb : ℝ

/-- The tuple returned by `calculate_performance`. -/
structure PerfResult where
  p_inj : ℝ
  mdot_ox : ℝ
  mdot_fuel : ℝ
  mdot : ℝ
  Gox : ℝ
  r : ℝ
  MR : ℝ
  Tc : ℝ
  MW : ℝ
  gamma : ℝ
  eps_out : ℝ
  cs : ℝ
  CF_vac : ℝ
  CF : ℝ
  Ivac : ℝ
  Is : ℝ
  flag : ℕ

/-- `calculate_performance` (`performance_singlepoint.py` lines 25-133).
The `try` block computes `MR = mdot_ox / mdot_fuel` (ZeroDivisionError
exactly when `mdot_fuel = 0`) and then calls the CEA oracle
(`IndexError` on oracle failure); both `except` branches zero the
chemistry outputs and set `flag = 1`. -/
noncomputable def calculatePerformance (cfg : Config) (Ainj Aport Ab pc gamma0 : ℝ) :
    PerfResult :=
  let eps_out := match cfg.eps with
    | .adapt => ER gamma0 cfg.pamb pc
    | .num x => x
  let p_inj := cfg.ptank - cfg.lineloss
  let mdot_ox := massflow cfg.po p_inj pc cfg.Ttank cfg.CD * Ainj
  let Gox := mdot_ox / Aport
  let r := cfg.a * Gox ^ cfg.n
  let mdot_fuel := cfg.rho_fuel * Ab * r
  let mdot := mdot_ox + mdot_fuel
  let chem : ℝ × ℝ × ℝ × ℝ × ℝ × ℝ × ℕ :=
    if mdot_fuel = 0 then
      (0, 0, 0, 0, 0, 0, 1)
    else
      match cfg.eqo pc (mdot_ox / mdot_fuel) eps_out with
      | .ok o => (mdot_ox / mdot_fuel, o.Tc, o.MW, o.gamma, o.cs, o.CF_vac, 0)
      | .error _ => (0, 0, 0, 0, 0, 0, 1)
  let MR := chem.1
  let Tc := chem.2.1
  let MW := chem.2.2.1
  let gamma := chem.2.2.2.1
  let cs := chem.2.2.2.2.1
  let CF_vac := chem.2.2.2.2.2.1
  let flag := chem.2.2.2.2.2.2
  let CF := CF_vac - eps_out * (cfg.pamb / pc)
  let Ivac := cs * CF_vac / 9.81
  let Is := cs * CF / 9.81
  ⟨p_inj, mdot_ox, mdot_fuel, mdot, Gox, r, MR, Tc, MW, gamma, eps_out, cs,
    CF_vac, CF, Ivac, Is, flag⟩

/-- `pressure_fun` (`performance_singlepoint.py` lines 136-182):
mass-conservation residual `mdot * cs / At - pc`, or the sentinel `1e8`
when the performance evaluation flagged chemistry failure. -/
noncomputable def pressureFun (cfg : Config) (Ainj Aport At Ab pc gamma0 : ℝ) : ℝ :=
  let P := calculatePerformance cfg Ainj Aport Ab pc gamma0
  if P.flag = 0 then P.mdot * P.cs / At - pc else 1e8

/-- `np.linspace a b n`: `n` evenly spaced samples from `a` to `b`,
endpoints included (`optimization.py` lines 45-51). -/
noncomputable def linspace (a b : ℝ) (n : ℕ) : List ℝ :=
  (List.range n).map fun i : ℕ => a + (i : ℝ) * (b - a) / ((n : ℝ) - 1)

/-- The trial-pressure scan grid of `starting_pressure`
(`optimization.py` lines 44-51): 100 samples from `1` (or from `pamb`
when it is positive) to `0.8 * ptank`, then the 100-sample segment from
`0.8 * ptank` to `ptank` with its first point dropped. -/
noncomputable def pcRange (ptank pamb : ℝ) : List ℝ :=
  if pamb ≤ 0 then
    linspace 1 (0.8 * ptank) 100 ++ (linspace (0.8 * ptank) ptank 100).drop 1
  else
    linspace pamb (0.8 * ptank) 100 ++ (linspace (0.8 * ptank) ptank 100).drop 1

/-- The scan samples of `starting_pressure` (`optimization.py` lines
53-60): each trial pressure paired with its residual value. -/
noncomputable def scanPairs (cfg : Config) (Ainj Aport At Ab gamma0 : ℝ) :
    List (ℝ × ℝ) :=
  (pcRange cfg.ptank cfg.pamb).map fun pc =>
    (pc, pressureFun cfg Ainj Aport At Ab pc gamma0)

/-- The surviving scan samples after the sentinel mask `Fpcs != 1e8`
(`optimization.py` lines 62-65). -/
noncomputable def scanSurvivors (cfg : Config) (Ainj Aport At Ab gamma0 : ℝ) :
    List (ℝ × ℝ) :=
  (scanPairs cfg Ainj Aport At Ab gamma0).filter fun q => q.2 ≠ 1e8

/-- `np.argmin(np.abs(Fpcs))` as a left fold: keep the earlier sample
unless a strictly smaller `|Fpc|` appears later (first-minimum rule). -/
noncomputable def pickMin (b : ℝ × ℝ) (l : List (ℝ × ℝ)) : ℝ × ℝ :=
  l.foldl (fun acc q => if |q.2| < |acc.2| then q else acc) b

/-- `starting_pressure` (`optimization.py` lines 10-73).  Returns `none`
when every sample was masked out (then `np.argmin` of the empty array
raises an uncaught `ValueError`); returns `some 0` when the surviving
residuals never change sign; otherwise the surviving trial pressure of
first minimal `|Fpc|`. -/
noncomputable def startingPressure (cfg : Config) (Ainj Aport At Ab gamma0 : ℝ) :
    Option ℝ :=
  match scanSurvivors cfg Ainj Aport At Ab gamma0 with
  | [] => none
  | b :: t =>
    let best := pickMin b t
    if (∀ q ∈ b :: t, |q.2| = q.2) ∨ (∀ q ∈ b :: t, -|q.2| = q.2) then
      some 0
    else
      some best.1

/-- Iteration cap of `get_pressure` (`optimization.py` line 122). -/
def maxit : ℕ := 1000

/-- Loop state of the damped Newton iteration in `get_pressure`. -/
structure NewtonState where
  pc : ℝ
  Fpc : ℝ
  k : ℝ
  gamma0 : ℝ
  n_iter : ℕ

/-- The raw Newton update of `get_pressure` (`optimization.py` lines
143-151): finite difference with `dpc = 10`, zero slope replaced by
`0.01`, update `pc - k_Newton * Fpc / dFpc`. -/
noncomputable def newtonRaw (cfg : Config) (Ainj Aport At Ab : ℝ)
    (st : NewtonState) : ℝ :=
  let Fdpc := pressureFun cfg Ainj Aport At Ab (st.pc + 10) st.gamma0
  let dFpc := (Fdpc - st.Fpc) / 10
  let dFpc := if dFpc = 0 then 0.01 else dFpc
  st.pc - st.k * st.Fpc / dFpc

/-- One body of the `while` loop of `get_pressure` (`optimization.py`
lines 142-167): raw Newton update, admissible-band fallback with damping
reduction, performance re-evaluation feeding `gamma` forward, fresh
residual, incremented iteration count. -/
noncomputable def newtonStep (cfg : Config) (Ainj Aport At Ab : ℝ)
    (st : NewtonState) : NewtonState :=
  let pcr := newtonRaw cfg Ainj Aport At Ab st
  let banded : ℝ × ℝ :=
    if pcr ≤ cfg.pamb then
      (max (0.2 * cfg.ptank) (1.5 * cfg.pamb), st.k - 0.05)
    else if cfg.ptank ≤ pcr then
      (0.75 * cfg.ptank, st.k - 0.05)
    else
      (pcr, st.k)
  let P := calculatePerformance cfg Ainj Aport Ab banded.1 st.gamma0
  let F2 := pressureFun cfg Ainj Aport At Ab banded.1 P.gamma
  ⟨banded.1, F2, banded.2, P.gamma, st.n_iter + 1⟩

/-- Fuel-indexed unfolding of the `while (|Fpc| > 1e-1) & (n_iter < maxit)`
loop of `get_pressure`.  Fuel `maxit` suffices because each step
increments `n_iter` and the guard requires `n_iter < maxit`. -/
noncomputable def newtonLoop (cfg : Config) (Ainj Aport At Ab : ℝ) :
    ℕ → NewtonState → NewtonState
  | 0, st => st
  | fuel + 1, st =>
    if 0.1 < |st.Fpc| ∧ st.n_iter < maxit then
      newtonLoop cfg Ainj Aport At Ab fuel (newtonStep cfg Ainj Aport At Ab st)
    else
      st

/-- The tuple returned by `get_pressure`. -/
structure GPResult where
  pc : ℝ
  Fpc : ℝ
  n_iter : ℕ
  maxit : ℕ
  gammaOut : ℝ

/-- `get_pressure` (`optimization.py` lines 76-169).  `none` when the
starting scan raised; the sentinel record `(0, 0, maxit + 1)` when the
scan found no sign change; otherwise the damped Newton iteration from
the scan's best point, with the evaluated `gamma` carried as seed. -/
noncomputable def getPressure (cfg : Config) (Ainj Aport At Ab gamma0 : ℝ) :
    Option GPResult :=
  match startingPressure cfg Ainj Aport At Ab gamma0 with
  | none => none
  | some pc0 =>
    if pc0 = 0 then
      some ⟨0, 0, maxit + 1, maxit, gamma0⟩
    else
      let P := calculatePerformance cfg Ainj Aport Ab pc0 gamma0
      let F0 := pressureFun cfg Ainj Aport At Ab pc0 P.gamma
      let fin := newtonLoop cfg Ainj Aport At Ab maxit ⟨pc0, F0, 1, P.gamma, 0⟩
      some ⟨fin.pc, fin.Fpc, fin.n_iter, maxit, fin.gamma0⟩

/-- One record of the sweep output arrays: the solver result, the
re-evaluated performance snapshot (absent when `pc = 0`, where the
output cells keep their initial values), and the convergence flag. -/
structure SweepRecord where
  res : GPResult
  perf : Option PerfResult
  flag : Int

/-- The chemistry flag used for classification at a grid point: the
re-evaluation's flag, or `0` in the `pc = 0` branch
(`optimization.py` lines 293-294). -/
def recPerfFlag (rec : SweepRecord) : ℕ :=
  (rec.perf.map PerfResult.flag).getD 0

/-- The flag cascade of `full_range_simulation`
(`optimization.py` lines 297-310). -/
def classifyFlag (n_iter maxit' fp : ℕ) : Int :=
  if n_iter = maxit' ∧ fp = 1 then 2
  else if n_iter = maxit' then 1
  else if n_iter = maxit' + 1 then 10
  else if fp = 1 then -1
  else 0

/-- One grid point of `full_range_simulation` (`optimization.py` lines
256-310): derive areas from the ratios with `Dt = 1`, solve for the
chamber pressure, re-evaluate performance at the solution when `pc ≠ 0`,
classify.  Returns the record and the carried-forward `gamma0`;
`none` when the solve raised. -/
noncomputable def sweepPoint (cfg : Config) (gamma0 Dport Dinj Lc : ℝ) :
    Option (SweepRecord × ℝ) :=
  let Aport := 0.25 * Real.pi * Dport ^ 2
  let Ainj := 0.25 * Real.pi * Dinj ^ 2
  let At := 0.25 * Real.pi * (1 : ℝ) ^ 2
  let Ab := Real.pi * Dport * Lc
  match getPressure cfg Ainj Aport At Ab gamma0 with
  | none => none
  | some res =>
    if res.pc ≠ 0 then
      let P := calculatePerformance cfg Ainj Aport Ab res.pc res.gammaOut
      some (⟨res, some P, classifyFlag res.n_iter res.maxit P.flag⟩, res.gammaOut)
    else
      some (⟨res, none, classifyFlag res.n_iter res.maxit 0⟩, res.gammaOut)

/-- The row-major list of `(Dport/Dt, Dinj/Dt, Lc/Dt)` triples visited by
the three nested loops of `full_range_simulation`. -/
def tripleGrid (ds is ls : List ℝ) : List (ℝ × ℝ × ℝ) :=
  ds.flatMap fun d => is.flatMap fun i => ls.map fun l => (d, i, l)

/-- Sequential sweep over the grid triples, threading the converged
`gamma0` of each point into the next solve; an uncaught exception at any
point (`none`) aborts the whole sweep. -/
noncomputable def runSweep (cfg : Config) :
    List (ℝ × ℝ × ℝ) → ℝ → Option (List SweepRecord)
  | [], _ => some []
  | t :: ts, g =>
    match sweepPoint cfg g t.1 t.2.1 t.2.2 with
    | none => none
    | some (r, g2) =>
      match runSweep cfg ts g2 with
      | none => none
      | some rs => some (r :: rs)

/-- `full_range_simulation` (`optimization.py` lines 172-314). -/
noncomputable def fullRangeSimulation (cfg : Config) (ds is ls : List ℝ)
    (gamma0 : ℝ) : Option (List SweepRecord) :=
  runSweep cfg (tripleGrid ds is ls) gamma0

/-- A trivial property oracle whose every lookup succeeds with value 1;
used to instantiate universally quantified statements. -/
def onesPO : PropOracle :=
  ⟨fun _ _ _ => .ok 1, fun _ _ _ => 1⟩

/-- A property oracle whose every single-phase lookup is out of domain
and whose every saturated lookup returns 1. -/
def satOnlyPO : PropOracle :=
  ⟨fun _ _ _ => .error (), fun _ _ _ => 1⟩

section BasicLemmas

variable (cfg : Config) (Ainj Aport At Ab pc gamma0 : ℝ)

/-- The chemistry-failure flag of `calculate_performance` is always 0 or 1. -/
lemma calculatePerformance_flag_cases :
    (calculatePerformance cfg Ainj Aport Ab pc gamma0).flag = 0 ∨
      (calculatePerformance cfg Ainj Aport Ab pc gamma0).flag = 1 := by
  dsimp only [calculatePerformance]
  split
  · exact Or.inr rfl
  · split
    · exact Or.inl rfl
    · exact Or.inr rfl

end BasicLemmas

section PickMinLemmas

/-- Unfolding `pickMin` one element at a time. -/
lemma pickMin_cons (b x : ℝ × ℝ) (xs : List (ℝ × ℝ)) :
    pickMin b (x :: xs) = pickMin (if |x.2| < |b.2| then x else b) xs := rfl

/-- The first minimum is kept: if no later sample has a strictly smaller
absolute value, the fold keeps its accumulator. -/
lemma pickMin_keep (l : List (ℝ × ℝ)) (b : ℝ × ℝ)
    (h : ∀ q ∈ l, ¬(|q.2| < |b.2|)) : pickMin b l = b := by
  induction l generalizing b with
  | nil => rfl
  | cons x xs ih =>
    rw [pickMin_cons, if_neg (h x (List.mem_cons_self x xs))]
    exact ih b fun q hq => h q (List.mem_cons_of_mem x hq)

/-- The fold result is the accumulator or one of the list elements. -/
lemma pickMin_eq_or_mem (l : List (ℝ × ℝ)) (b : ℝ × ℝ) :
    pickMin b l = b ∨ pickMin b l ∈ l := by
  induction l generalizing b with
  | nil => exact Or.inl rfl
  | cons x xs ih =>
    rw [pickMin_cons]
    rcases ih (if |x.2| < |b.2| then x else b) with h | h
    · rw [h]
      split
      · exact Or.inr (List.mem_cons_self x xs)
      · exact Or.inl rfl
    · exact Or.inr (List.mem_cons_of_mem x h)

/-- The fold result minimises the absolute residual over the accumulator
and all list elements. -/
lemma pickMin_le (l : List (ℝ × ℝ)) (b : ℝ × ℝ) :
    |(pickMin b l).2| ≤ |b.2| ∧ ∀ q ∈ l, |(pickMin b l).2| ≤ |q.2| := by
  induction l generalizing b with
  | nil => exact ⟨le_refl _, fun q hq => absurd hq (List.not_mem_nil q)⟩
  | cons x xs ih =>
    rw [pickMin_cons]
    obtain ⟨h1, h2⟩ := ih (if |x.2| < |b.2| then x else b)
    constructor
    · refine le_trans h1 ?_
      split
      · next hlt => exact le_of_lt hlt
      · exact le_refl _
    · intro q hq
      rcases List.mem_cons.mp hq with rfl | hq
      · refine le_trans h1 ?_
        split
        · exact le_refl _
        · next hge => exact le_of_not_lt hge
      · exact h2 q hq

end PickMinLemmas

section GridLemmas

/-- `linspace a b 100` starts at `a` and continues with the 99 samples
`a + (i+1) * (b - a) / 99`. -/
lemma linspace_hundred (a b : ℝ) :
    linspace a b 100 =
      a :: (List.range 99).map (fun i : ℕ => a + ((i : ℝ) + 1) * (b - a) / 99) := by
  unfold linspace
  rw [show (100 : ℕ) = 99 + 1 from rfl, List.range_succ_eq_map, List.map_cons,
    List.map_map]
  refine congrArg₂ _ (by norm_num) ?_
  refine List.map_congr_left fun i _ => ?_
  simp only [Function.comp_apply, Nat.succ_eq_add_one]
  push_cast
  norm_num

/-- Dropping the first sample of `linspace a b 100` leaves the 99 samples
`a + (i+1) * (b - a) / 99`. -/
lemma linspace_hundred_drop (a b : ℝ) :
    (linspace a b 100).drop 1 =
      (List.range 99).map (fun i : ℕ => a + ((i : ℝ) + 1) * (b - a) / 99) := by
  rw [linspace_hundred]
  rfl

/-- Cons decomposition of the scan grid: it starts at `1` (when
`pamb ≤ 0`) or at `pamb`, followed by the rest of the coarse segment and
the dense upper segment. -/
lemma pcRange_cons (ptank pamb : ℝ) :
    pcRange ptank pamb =
      (if pamb ≤ 0 then (1 : ℝ) else pamb) ::
        ((List.range 99).map
            (fun i : ℕ => (if pamb ≤ 0 then (1 : ℝ) else pamb) +
              ((i : ℝ) + 1) * (0.8 * ptank - (if pamb ≤ 0 then (1 : ℝ) else pamb)) / 99) ++
          (List.range 99).map
            (fun i : ℕ => 0.8 * ptank + ((i : ℝ) + 1) * (ptank - 0.8 * ptank) / 99)) := by
  unfold pcRange
  split
  · rw [linspace_hundred, linspace_hundred_drop, List.cons_append]
  · rw [linspace_hundred, linspace_hundred_drop, List.cons_append]

end GridLemmas

section ScanLemmas

variable (cfg : Config) (Ainj Aport At Ab gamma0 : ℝ)

/-- When no sample hits the sentinel, the mask keeps every sample. -/
lemma scanSurvivors_all
    (h : ∀ pc ∈ pcRange cfg.ptank cfg.pamb,
      pressureFun cfg Ainj Aport At Ab pc gamma0 ≠ 1e8) :
    scanSurvivors cfg Ainj Aport At Ab gamma0 =
      scanPairs cfg Ainj Aport At Ab gamma0 := by
  unfold scanSurvivors
  rw [List.filter_eq_self]
  intro q hq
  obtain ⟨pc, hpc, rfl⟩ := List.mem_map.mp hq
  simpa using h pc hpc

/-- When every sample survives and the residuals are single-signed over
the grid, the scan returns the sentinel guess 0. -/
lemma startingPressure_single_signed (lo : ℝ) (t : List ℝ)
    (hcons : pcRange cfg.ptank cfg.pamb = lo :: t)
    (hne : ∀ pc ∈ pcRange cfg.ptank cfg.pamb,
      pressureFun cfg Ainj Aport At Ab pc gamma0 ≠ 1e8)
    (hsgn : (∀ pc ∈ pcRange cfg.ptank cfg.pamb,
        |pressureFun cfg Ainj Aport At Ab pc gamma0| =
          pressureFun cfg Ainj Aport At Ab pc gamma0) ∨
      (∀ pc ∈ pcRange cfg.ptank cfg.pamb,
        -|pressureFun cfg Ainj Aport At Ab pc gamma0| =
          pressureFun cfg Ainj Aport At Ab pc gamma0)) :
    startingPressure cfg Ainj Aport At Ab gamma0 = some 0 := by
  have hsurv : scanSurvivors cfg Ainj Aport At Ab gamma0 =
      (lo, pressureFun cfg Ainj Aport At Ab lo gamma0) ::
        t.map (fun pc => (pc, pressureFun cfg Ainj Aport At Ab pc gamma0)) := by
    rw [scanSurvivors_all cfg Ainj Aport At Ab gamma0 hne]
    unfold scanPairs
    rw [hcons, List.map_cons]
  unfold startingPressure
  rw [hsurv]
  dsimp only
  rw [if_pos]
  rcases hsgn with hall | hall
  · left
    intro q hq
    rcases List.mem_cons.mp hq with rfl | hq
    · exact hall lo (by rw [hcons]; exact List.mem_cons_self lo t)
    · obtain ⟨pc, hpc, rfl⟩ := List.mem_map.mp hq
      exact hall pc (by rw [hcons]; exact List.mem_cons_of_mem lo hpc)
  · right
    intro q hq
    rcases List.mem_cons.mp hq with rfl | hq
    · exact hall lo (by rw [hcons]; exact List.mem_cons_self lo t)
    · obtain ⟨pc, hpc, rfl⟩ := List.mem_map.mp hq
      exact hall pc (by rw [hcons]; exact List.mem_cons_of_mem lo hpc)

/-- When every sample survives, the head of the grid has the strictly
smallest absolute residual, and the residual takes both signs on the
grid, the scan returns the head of the grid. -/
lemma startingPressure_first (lo : ℝ) (t : List ℝ)
    (hcons : pcRange cfg.ptank cfg.pamb = lo :: t)
    (hne : ∀ pc ∈ pcRange cfg.ptank cfg.pamb,
      pressureFun cfg Ainj Aport At Ab pc gamma0 ≠ 1e8)
    (hmin : ∀ pc ∈ t,
      ¬(|pressureFun cfg Ainj Aport At Ab pc gamma0| <
        |pressureFun cfg Ainj Aport At Ab lo gamma0|))
    (hpos : ∃ pc ∈ pcRange cfg.ptank cfg.pamb,
      ¬(|pressureFun cfg Ainj Aport At Ab pc gamma0| =
        pressureFun cfg Ainj Aport At Ab pc gamma0))
    (hneg : ∃ pc ∈ pcRange cfg.ptank cfg.pamb,
      ¬(-|pressureFun cfg Ainj Aport At Ab pc gamma0| =
        pressureFun cfg Ainj Aport At Ab pc gamma0)) :
    startingPressure cfg Ainj Aport At Ab gamma0 = some lo := by
  have hsurv : scanSurvivors cfg Ainj Aport At Ab gamma0 =
      (lo, pressureFun cfg Ainj Aport At Ab lo gamma0) ::
        t.map (fun pc => (pc, pressureFun cfg Ainj Aport At Ab pc gamma0)) := by
    rw [scanSurvivors_all cfg Ainj Aport At Ab gamma0 hne]
    unfold scanPairs
    rw [hcons, List.map_cons]
  have hmem : ∀ pc : ℝ, pc ∈ pcRange cfg.ptank cfg.pamb →
      (pc, pressureFun cfg Ainj Aport At Ab pc gamma0) ∈
        (lo, pressureFun cfg Ainj Aport At Ab lo gamma0) ::
          t.map (fun pc => (pc, pressureFun cfg Ainj Aport At Ab pc gamma0)) := by
    intro pc hpc
    rw [hcons] at hpc
    rcases List.mem_cons.mp hpc with rfl | hpc
    · exact List.mem_cons_self _ _
    · exact List.mem_cons_of_mem _ (List.mem_map.mpr ⟨pc, hpc, rfl⟩)
  unfold startingPressure
  rw [hsurv]
  dsimp only
  rw [if_neg, pickMin_keep]
  · intro q hq
    obtain ⟨pc, hpc, rfl⟩ := List.mem_map.mp hq
    exact hmin pc hpc
  · rintro (hall | hall)
    · obtain ⟨pc, hpc, hval⟩ := hpos
      exact hval (hall _ (hmem pc hpc))
    · obtain ⟨pc, hpc, hval⟩ := hneg
      exact hval (hall _ (hmem pc hpc))

end ScanLemmas

section Scenario

/-- An equilibrium oracle that always succeeds and encodes an arbitrary
target residual `g` through the characteristic velocity: with the
scenario geometry below, the computed residual at `pc` is exactly
`g pc`. -/
noncomputable def mkEqOracle (At : ℝ) (g : ℝ → ℝ) : EqOracle :=
  fun pc _ _ => .ok ⟨1, 1, 13 / 10, At * (pc + g pc), 1⟩

/-- Scenario configuration: trivial property oracle, `mkEqOracle`,
no line loss, numeric expansion ratio 2, unit coefficients, regression
exponent 0, fuel density `rho`. -/
noncomputable def scenCfg (At : ℝ) (g : ℝ → ℝ) (ptank pamb rho : ℝ) : Config :=
  ⟨onesPO, mkEqOracle At g, 0, .num 2, ptank, 288, 1, 1, 0, rho, pamb⟩

/-- Closed form of `calculate_performance` under the scenario
configuration with zero injection area and `rho * Ab = 1`: the injector
term vanishes, the fuel flow is 1, and the oracle succeeds. -/
lemma scen_perf (At : ℝ) (g : ℝ → ℝ) (ptank pamb rho Ainj Aport Ab pc gamma0 : ℝ)
    (hAinj : Ainj = 0) (hfuel : rho * Ab = 1) :
    calculatePerformance (scenCfg At g ptank pamb rho) Ainj Aport Ab pc gamma0 =
      ⟨ptank, 0, 1, 1, 0, 1, 0, 1, 1, 13 / 10, 2, At * (pc + g pc), 1,
        1 - 2 * (pamb / pc), At * (pc + g pc) * 1 / 9.81,
        At * (pc + g pc) * (1 - 2 * (pamb / pc)) / 9.81, 0⟩ := by
  subst hAinj
  unfold calculatePerformance scenCfg mkEqOracle
  norm_num [Real.rpow_zero, hfuel]

/-- Closed form of the residual under the scenario configuration:
`pressure_fun` evaluates to `g pc`. -/
lemma scen_F (At : ℝ) (g : ℝ → ℝ) (ptank pamb rho Ainj Aport Ab pc gamma0 : ℝ)
    (hAinj : Ainj = 0) (hfuel : rho * Ab = 1) (hAt : At ≠ 0) :
    pressureFun (scenCfg At g ptank pamb rho) Ainj Aport At Ab pc gamma0 = g pc := by
  unfold pressureFun
  rw [scen_perf At g ptank pamb rho Ainj Aport Ab pc gamma0 hAinj hfuel]
  simp only [if_pos rfl]
  field_simp

end Scenario

section NewtonLemmas

variable (cfg : Config) (Ainj Aport At Ab : ℝ)

/-- One Newton step increments the iteration counter by exactly 1. -/
lemma newtonStep_n_iter (st : NewtonState) :
    (newtonStep cfg Ainj Aport At Ab st).n_iter = st.n_iter + 1 := rfl

/-- The residual stored by a Newton step is the residual evaluated at
the accepted pressure with the freshly evaluated gamma. -/
lemma newtonStep_Fpc (st : NewtonState) :
    (newtonStep cfg Ainj Aport At Ab st).Fpc =
      pressureFun cfg Ainj Aport At Ab (newtonStep cfg Ainj Aport At Ab st).pc
        (calculatePerformance cfg Ainj Aport Ab
          (newtonStep cfg Ainj Aport At Ab st).pc st.gamma0).gamma := rfl

/-- The loop is the identity when its guard fails. -/
lemma newtonLoop_stop (fuel : ℕ) (st : NewtonState)
    (h : ¬(0.1 < |st.Fpc| ∧ st.n_iter < maxit)) :
    newtonLoop cfg Ainj Aport At Ab fuel st = st := by
  cases fuel with
  | zero => rfl
  | succ fuel =>
    unfold newtonLoop
    rw [if_neg h]

/-- The loop takes a step when its guard holds. -/
lemma newtonLoop_go (fuel : ℕ) (st : NewtonState)
    (h : 0.1 < |st.Fpc| ∧ st.n_iter < maxit) :
    newtonLoop cfg Ainj Aport At Ab (fuel + 1) st =
      newtonLoop cfg Ainj Aport At Ab fuel (newtonStep cfg Ainj Aport At Ab st) := by
  conv_lhs => unfold newtonLoop
  rw [if_pos h]

/-- The final iteration count is bounded by the initial count plus the
fuel. -/
lemma newtonLoop_n_iter_le (fuel : ℕ) (st : NewtonState) :
    (newtonLoop cfg Ainj Aport At Ab fuel st).n_iter ≤ st.n_iter + fuel := by
  induction fuel generalizing st with
  | zero => simp [newtonLoop]
  | succ fuel ih =>
    unfold newtonLoop
    split
    · have := ih (newtonStep cfg Ainj Aport At Ab st)
      rw [newtonStep_n_iter] at this
      omega
    · omega

/-- With enough fuel, the loop only returns once its guard fails: at the
returned state either the residual meets the tolerance or the iteration
cap is reached. -/
lemma newtonLoop_exit (fuel : ℕ) (st : NewtonState)
    (hfuel : maxit ≤ st.n_iter + fuel) :
    |(newtonLoop cfg Ainj Aport At Ab fuel st).Fpc| ≤ 0.1 ∨
      maxit ≤ (newtonLoop cfg Ainj Aport At Ab fuel st).n_iter := by
  induction fuel generalizing st with
  | zero =>
    right
    simpa [newtonLoop] using hfuel
  | succ fuel ih =>
    by_cases hcond : 0.1 < |st.Fpc| ∧ st.n_iter < maxit
    · rw [newtonLoop_go cfg Ainj Aport At Ab fuel st hcond]
      refine ih (newtonStep cfg Ainj Aport At Ab st) ?_
      rw [newtonStep_n_iter]
      omega
    · rw [newtonLoop_stop cfg Ainj Aport At Ab (fuel + 1) st hcond]
      rcases not_and_or.mp hcond with h | h
      · exact Or.inl (not_lt.mp h)
      · exact Or.inr (not_lt.mp h)

/-- Every pressure accepted by a Newton step lies strictly inside
`(pamb, ptank)` provided `0 ≤ pamb < 0.2 * ptank`: the raw update is
kept only when it is strictly inside, and both fallback values are
strictly inside. -/
lemma newtonStep_band (h0 : 0 ≤ cfg.pamb) (h1 : cfg.pamb < 0.2 * cfg.ptank)
    (st : NewtonState) :
    cfg.pamb < (newtonStep cfg Ainj Aport At Ab st).pc ∧
      (newtonStep cfg Ainj Aport At Ab st).pc < cfg.ptank := by
  have hpt : 0 < cfg.ptank := by nlinarith
  unfold newtonStep
  dsimp only
  split_ifs with hle hge
  · constructor
    · exact lt_of_lt_of_le h1 (le_max_left _ _)
    · apply max_lt <;> nlinarith
  · constructor <;> nlinarith
  · exact ⟨not_le.mp hle, not_le.mp hge⟩

/-- The banded invariant is preserved by the whole loop. -/
lemma newtonLoop_band (h0 : 0 ≤ cfg.pamb) (h1 : cfg.pamb < 0.2 * cfg.ptank)
    (fuel : ℕ) (st : NewtonState)
    (hst : cfg.pamb < st.pc ∧ st.pc < cfg.ptank) :
    cfg.pamb < (newtonLoop cfg Ainj Aport At Ab fuel st).pc ∧
      (newtonLoop cfg Ainj Aport At Ab fuel st).pc < cfg.ptank := by
  induction fuel generalizing st with
  | zero => exact hst
  | succ fuel ih =>
    by_cases hcond : 0.1 < |st.Fpc| ∧ st.n_iter < maxit
    · rw [newtonLoop_go cfg Ainj Aport At Ab fuel st hcond]
      exact ih (newtonStep cfg Ainj Aport At Ab st)
        (newtonStep_band cfg Ainj Aport At Ab h0 h1 st)
    · rw [newtonLoop_stop cfg Ainj Aport At Ab (fuel + 1) st hcond]
      exact hst

/-- If the loop moved at all (the iteration count changed), the returned
pressure lies strictly inside the band. -/
lemma newtonLoop_moved_band (h0 : 0 ≤ cfg.pamb) (h1 : cfg.pamb < 0.2 * cfg.ptank)
    (fuel : ℕ) (st : NewtonState)
    (hmove : (newtonLoop cfg Ainj Aport At Ab fuel st).n_iter ≠ st.n_iter) :
    cfg.pamb < (newtonLoop cfg Ainj Aport At Ab fuel st).pc ∧
      (newtonLoop cfg Ainj Aport At Ab fuel st).pc < cfg.ptank := by
  cases fuel with
  | zero => exact absurd rfl hmove
  | succ fuel =>
    by_cases hcond : 0.1 < |st.Fpc| ∧ st.n_iter < maxit
    · rw [newtonLoop_go cfg Ainj Aport At Ab fuel st hcond]
      exact newtonLoop_band cfg Ainj Aport At Ab h0 h1 fuel
        (newtonStep cfg Ainj Aport At Ab st)
        (newtonStep_band cfg Ainj Aport At Ab h0 h1 st)
    · rw [newtonLoop_stop cfg Ainj Aport At Ab (fuel + 1) st hcond] at hmove
      exact absurd rfl hmove

/-- When the residual stays above the tolerance everywhere, the loop
consumes all its fuel (up to the cap). -/
lemma newtonLoop_forever
    (hF : ∀ pc γ, 0.1 < |pressureFun cfg Ainj Aport At Ab pc γ|)
    (fuel : ℕ) (st : NewtonState) (hst : 0.1 < |st.Fpc|)
    (hfuel : st.n_iter + fuel ≤ maxit) :
    (newtonLoop cfg Ainj Aport At Ab fuel st).n_iter = st.n_iter + fuel := by
  induction fuel generalizing st with
  | zero => simp [newtonLoop]
  | succ fuel ih =>
    have hcond : 0.1 < |st.Fpc| ∧ st.n_iter < maxit := ⟨hst, by omega⟩
    rw [newtonLoop_go cfg Ainj Aport At Ab fuel st hcond]
    have hstep : 0.1 < |(newtonStep cfg Ainj Aport At Ab st).Fpc| := by
      rw [newtonStep_Fpc]
      exact hF _ _
    have hrec := ih (newtonStep cfg Ainj Aport At Ab st) hstep
      (by rw [newtonStep_n_iter]; omega)
    rw [hrec, newtonStep_n_iter]
    omega

end NewtonLemmas

/-- The Newton iteration of `get_pressure` launched from a valid
starting guess `pc0`: damping 1, iteration count 0, seed gamma taken
from the first performance evaluation. -/
noncomputable def newtonFromStart (cfg : Config) (Ainj Aport At Ab gamma0 pc0 : ℝ) :
    NewtonState :=
  newtonLoop cfg Ainj Aport At Ab maxit
    ⟨pc0,
      pressureFun cfg Ainj Aport At Ab pc0
        (calculatePerformance cfg Ainj Aport Ab pc0 gamma0).gamma,
      1, (calculatePerformance cfg Ainj Aport Ab pc0 gamma0).gamma, 0⟩

section GetPressureLemmas

variable (cfg : Config) (Ainj Aport At Ab gamma0 : ℝ)

/-- `get_pressure` on the no-bracketed-solution sentinel. -/
lemma getPressure_sentinel
    (h : startingPressure cfg Ainj Aport At Ab gamma0 = some 0) :
    getPressure cfg Ainj Aport At Ab gamma0 =
      some ⟨0, 0, maxit + 1, maxit, gamma0⟩ := by
  unfold getPressure
  rw [h]
  simp

/-- `get_pressure` on a nonzero starting guess runs the Newton loop. -/
lemma getPressure_run (pc0 : ℝ)
    (h : startingPressure cfg Ainj Aport At Ab gamma0 = some pc0)
    (h0 : pc0 ≠ 0) :
    getPressure cfg Ainj Aport At Ab gamma0 =
      some ⟨(newtonFromStart cfg Ainj Aport At Ab gamma0 pc0).pc,
        (newtonFromStart cfg Ainj Aport At Ab gamma0 pc0).Fpc,
        (newtonFromStart cfg Ainj Aport At Ab gamma0 pc0).n_iter, maxit,
        (newtonFromStart cfg Ainj Aport At Ab gamma0 pc0).gamma0⟩ := by
  unfold getPressure newtonFromStart
  rw [h]
  dsimp only
  rw [if_neg h0]

end GetPressureLemmas

section ConcreteGrid

/-- Tail of the coarse scan segment for `ptank = 100` with lower end 1:
the 99 samples `1 + (i+1) * 79 / 99`. -/
noncomputable def gridTailA : List ℝ :=
  (List.range 99).map fun i : ℕ => 1 + ((i : ℝ) + 1) * 79 / 99

/-- The dense upper scan segment for `ptank = 100`: the 99 samples
`80 + (i+1) * 20 / 99`. -/
noncomputable def gridTailB : List ℝ :=
  (List.range 99).map fun i : ℕ => 80 + ((i : ℝ) + 1) * 20 / 99

/-- The scan grid for `ptank = 100`, `pamb = 0`. -/
lemma pcRange_100_0 : pcRange 100 0 = 1 :: (gridTailA ++ gridTailB) := by
  rw [pcRange_cons]
  norm_num [gridTailA, gridTailB]

/-- The scan grid for `ptank = 100`, `pamb = 1` coincides with the one
for `pamb = 0` because the grid then starts at `pamb = 1`. -/
lemma pcRange_100_1 : pcRange 100 1 = 1 :: (gridTailA ++ gridTailB) := by
  rw [pcRange_cons]
  norm_num [gridTailA, gridTailB]

/-- Every sample in the coarse tail lies strictly between 1 and 80. -/
lemma gridTailA_bounds : ∀ x ∈ gridTailA, 1 < x ∧ x ≤ 80 := by
  intro x hx
  obtain ⟨i, hi, rfl⟩ := List.mem_map.mp hx
  have hi' : i < 99 := List.mem_range.mp hi
  have h0 : (0 : ℝ) ≤ (i : ℝ) := Nat.cast_nonneg i
  have h98 : (i : ℝ) ≤ 98 := by exact_mod_cast Nat.lt_succ_iff.mp hi'
  constructor <;> nlinarith

/-- Every sample in the dense tail lies strictly between 80 and 100. -/
lemma gridTailB_bounds : ∀ x ∈ gridTailB, 80 < x ∧ x ≤ 100 := by
  intro x hx
  obtain ⟨i, hi, rfl⟩ := List.mem_map.mp hx
  have hi' : i < 99 := List.mem_range.mp hi
  have h0 : (0 : ℝ) ≤ (i : ℝ) := Nat.cast_nonneg i
  have h98 : (i : ℝ) ≤ 98 := by exact_mod_cast Nat.lt_succ_iff.mp hi'
  constructor <;> nlinarith

/-- 20 is not a sample of the coarse tail: `(i+1) * 79 = 1881` has no
solution. -/
lemma gridTailA_ne_twenty : ∀ x ∈ gridTailA, x ≠ 20 := by
  intro x hx heq
  obtain ⟨i, hi, rfl⟩ := List.mem_map.mp hx
  have hr : ((i : ℝ) + 1) * 79 = 1881 := by linarith
  have hn : (i + 1) * 79 = 1881 := by exact_mod_cast hr
  omega

/-- The tank pressure 100 is the last sample of the dense tail. -/
lemma gridTailB_mem_100 : (100 : ℝ) ∈ gridTailB := by
  refine List.mem_map.mpr ⟨98, List.mem_range.mpr (by norm_num), ?_⟩
  push_cast
  norm_num

end ConcreteGrid

section ScenarioW

/-- A mock residual with a unique in-tolerance minimum at the grid head
1 and a sign change at the grid tail 100. -/
noncomputable def gW : ℝ → ℝ := fun pc =>
  if pc = 1 then 1 / 20 else if pc = 100 then -1 else 1

lemma gW_one : gW 1 = 1 / 20 := by
  unfold gW
  rw [if_pos rfl]

lemma gW_hundred : gW 100 = -1 := by
  unfold gW
  rw [if_neg (by norm_num), if_pos rfl]

lemma gW_ne_sentinel (pc : ℝ) : gW pc ≠ 1e8 := by
  unfold gW
  split_ifs <;> norm_num

lemma gW_abs_of_ne_one (pc : ℝ) (h : pc ≠ 1) : |gW pc| = 1 := by
  unfold gW
  rw [if_neg h]
  split_ifs <;> norm_num

/-- Scenario W: `ptank = 100`, `pamb = 0`, residual `gW`. -/
noncomputable def cfgW : Config := scenCfg 1 gW 100 0 1

/-- Scenario W with ambient pressure 1 (the grid then starts at
`pamb` itself). -/
noncomputable def cfgW1 : Config := scenCfg 1 gW 100 1 1

lemma cfgW_F (pc γ : ℝ) : pressureFun cfgW 0 1 1 1 pc γ = gW pc :=
  scen_F 1 gW 100 0 1 0 1 1 pc γ rfl (by norm_num) (by norm_num)

lemma cfgW1_F (pc γ : ℝ) : pressureFun cfgW1 0 1 1 1 pc γ = gW pc :=
  scen_F 1 gW 100 1 1 0 1 1 pc γ rfl (by norm_num) (by norm_num)

/-- The starting scan of scenario W returns the grid head 1. -/
lemma cfgW_SP (γ : ℝ) : startingPressure cfgW 0 1 1 1 γ = some 1 := by
  refine startingPressure_first cfgW 0 1 1 1 γ 1 (gridTailA ++ gridTailB)
    pcRange_100_0 ?_ ?_ ?_ ?_
  · intro pc _
    rw [cfgW_F]
    exact gW_ne_sentinel pc
  · intro pc hpc
    rw [cfgW_F, cfgW_F, gW_one]
    have hne : pc ≠ 1 := by
      rcases List.mem_append.mp hpc with h | h
      · exact ne_of_gt (gridTailA_bounds pc h).1
      · have := (gridTailB_bounds pc h).1
        intro heq
        rw [heq] at this
        norm_num at this
    rw [gW_abs_of_ne_one pc hne]
    norm_num [abs_of_nonneg]
  · refine ⟨100, ?_, ?_⟩
    · show (100 : ℝ) ∈ pcRange 100 0
      rw [pcRange_100_0]
      exact List.mem_cons_of_mem _ (List.mem_append_right _ gridTailB_mem_100)
    · rw [cfgW_F, gW_hundred]
      norm_num
  · refine ⟨1, ?_, ?_⟩
    · show (1 : ℝ) ∈ pcRange 100 0
      rw [pcRange_100_0]
      exact List.mem_cons_self _ _
    · rw [cfgW_F, gW_one, abs_of_nonneg (by norm_num : (0 : ℝ) ≤ 1 / 20)]
      norm_num

/-- The starting scan of scenario W with `pamb = 1` also returns 1. -/
lemma cfgW1_SP (γ : ℝ) : startingPressure cfgW1 0 1 1 1 γ = some 1 := by
  refine startingPressure_first cfgW1 0 1 1 1 γ 1 (gridTailA ++ gridTailB)
    pcRange_100_1 ?_ ?_ ?_ ?_
  · intro pc _
    rw [cfgW1_F]
    exact gW_ne_sentinel pc
  · intro pc hpc
    rw [cfgW1_F, cfgW1_F, gW_one]
    have hne : pc ≠ 1 := by
      rcases List.mem_append.mp hpc with h | h
      · exact ne_of_gt (gridTailA_bounds pc h).1
      · have := (gridTailB_bounds pc h).1
        intro heq
        rw [heq] at this
        norm_num at this
    rw [gW_abs_of_ne_one pc hne]
    norm_num [abs_of_nonneg]
  · refine ⟨100, ?_, ?_⟩
    · show (100 : ℝ) ∈ pcRange 100 1
      rw [pcRange_100_1]
      exact List.mem_cons_of_mem _ (List.mem_append_right _ gridTailB_mem_100)
    · rw [cfgW1_F, gW_hundred]
      norm_num
  · refine ⟨1, ?_, ?_⟩
    · show (1 : ℝ) ∈ pcRange 100 1
      rw [pcRange_100_1]
      exact List.mem_cons_self _ _
    · rw [cfgW1_F, gW_one, abs_of_nonneg (by norm_num : (0 : ℝ) ≤ 1 / 20)]
      norm_num

/-- The first residual of scenario W meets the tolerance, so the loop
never runs. -/
lemma cfgW_newton (γ : ℝ) :
    newtonFromStart cfgW 0 1 1 1 γ 1 = ⟨1, 1 / 20, 1, 13 / 10, 0⟩ := by
  have hP : (calculatePerformance cfgW 0 1 1 1 γ).gamma = 13 / 10 := by
    rw [show cfgW = scenCfg 1 gW 100 0 1 from rfl,
      scen_perf 1 gW 100 0 1 0 1 1 1 γ rfl (by norm_num)]
  unfold newtonFromStart
  rw [hP, cfgW_F 1 (13 / 10), gW_one]
  apply newtonLoop_stop
  intro hcond
  have := hcond.1
  rw [abs_of_nonneg (by norm_num)] at this
  norm_num at this

lemma cfgW1_newton (γ : ℝ) :
    newtonFromStart cfgW1 0 1 1 1 γ 1 = ⟨1, 1 / 20, 1, 13 / 10, 0⟩ := by
  have hP : (calculatePerformance cfgW1 0 1 1 1 γ).gamma = 13 / 10 := by
    rw [show cfgW1 = scenCfg 1 gW 100 1 1 from rfl,
      scen_perf 1 gW 100 1 1 0 1 1 1 γ rfl (by norm_num)]
  unfold newtonFromStart
  rw [hP, cfgW1_F 1 (13 / 10), gW_one]
  apply newtonLoop_stop
  intro hcond
  have := hcond.1
  rw [abs_of_nonneg (by norm_num)] at this
  norm_num at this

/-- Scenario W: full evaluation of `get_pressure`: it stops with zero
iterations at the grid head. -/
lemma cfgW_GP (γ : ℝ) :
    getPressure cfgW 0 1 1 1 γ = some ⟨1, 1 / 20, 0, maxit, 13 / 10⟩ := by
  rw [getPressure_run cfgW 0 1 1 1 γ 1 (cfgW_SP γ) one_ne_zero, cfgW_newton γ]

/-- Scenario W with `pamb = 1`: `get_pressure` returns `pc = 1 = pamb`. -/
lemma cfgW1_GP (γ : ℝ) :
    getPressure cfgW1 0 1 1 1 γ = some ⟨1, 1 / 20, 0, maxit, 13 / 10⟩ := by
  rw [getPressure_run cfgW1 0 1 1 1 γ 1 (cfgW1_SP γ) one_ne_zero, cfgW1_newton γ]

end ScenarioW

section ScenarioX

/-- A mock residual forcing exactly one Newton iteration: value 1/5 at
the grid head and at the finite-difference probe 11 (so the slope is
zero and the raw update −19 leaves the band), in-tolerance value 1/20 at
the fallback 20, sign change at 100. -/
noncomputable def gX : ℝ → ℝ := fun pc =>
  if pc = 1 then 1 / 5
  else if pc = 11 then 1 / 5
  else if pc = 20 then 1 / 20
  else if pc = 100 then -1
  else 1

lemma gX_one : gX 1 = 1 / 5 := by
  unfold gX
  rw [if_pos rfl]

lemma gX_eleven : gX 11 = 1 / 5 := by
  unfold gX
  rw [if_neg (by norm_num), if_pos rfl]

lemma gX_twenty : gX 20 = 1 / 20 := by
  unfold gX
  rw [if_neg (by norm_num), if_neg (by norm_num), if_pos rfl]

lemma gX_hundred : gX 100 = -1 := by
  unfold gX
  rw [if_neg (by norm_num), if_neg (by norm_num), if_neg (by norm_num), if_pos rfl]

lemma gX_ne_sentinel (pc : ℝ) : gX pc ≠ 1e8 := by
  unfold gX
  split_ifs <;> norm_num

lemma gX_min (pc : ℝ) (h1 : pc ≠ 1) (h20 : pc ≠ 20) : ¬(|gX pc| < |gX 1|) := by
  rw [gX_one]
  unfold gX
  rw [if_neg h1]
  by_cases h11 : pc = 11
  · rw [if_pos h11]
    exact lt_irrefl _
  · rw [if_neg h11, if_neg h20]
    by_cases h100 : pc = 100
    · rw [if_pos h100, abs_of_nonneg (by norm_num : (0 : ℝ) ≤ 1 / 5)]
      norm_num
    · rw [if_neg h100, abs_of_nonneg (by norm_num : (0 : ℝ) ≤ 1 / 5),
        abs_of_nonneg (by norm_num : (0 : ℝ) ≤ 1)]
      norm_num

/-- Scenario X: `ptank = 100`, `pamb = 0`, residual `gX`. -/
noncomputable def cfgX : Config := scenCfg 1 gX 100 0 1

lemma cfgX_F (pc γ : ℝ) : pressureFun cfgX 0 1 1 1 pc γ = gX pc :=
  scen_F 1 gX 100 0 1 0 1 1 pc γ rfl (by norm_num) (by norm_num)

/-- The starting scan of scenario X returns the grid head 1. -/
lemma cfgX_SP (γ : ℝ) : startingPressure cfgX 0 1 1 1 γ = some 1 := by
  refine startingPressure_first cfgX 0 1 1 1 γ 1 (gridTailA ++ gridTailB)
    pcRange_100_0 ?_ ?_ ?_ ?_
  · intro pc _
    rw [cfgX_F]
    exact gX_ne_sentinel pc
  · intro pc hpc
    rw [cfgX_F, cfgX_F]
    have hne1 : pc ≠ 1 := by
      rcases List.mem_append.mp hpc with h | h
      · exact ne_of_gt (gridTailA_bounds pc h).1
      · have := (gridTailB_bounds pc h).1
        intro heq
        rw [heq] at this
        norm_num at this
    have hne20 : pc ≠ 20 := by
      rcases List.mem_append.mp hpc with h | h
      · exact gridTailA_ne_twenty pc h
      · have := (gridTailB_bounds pc h).1
        intro heq
        rw [heq] at this
        norm_num at this
    exact gX_min pc hne1 hne20
  · refine ⟨100, ?_, ?_⟩
    · show (100 : ℝ) ∈ pcRange 100 0
      rw [pcRange_100_0]
      exact List.mem_cons_of_mem _ (List.mem_append_right _ gridTailB_mem_100)
    · rw [cfgX_F, gX_hundred]
      norm_num
  · refine ⟨1, ?_, ?_⟩
    · show (1 : ℝ) ∈ pcRange 100 0
      rw [pcRange_100_0]
      exact List.mem_cons_self _ _
    · rw [cfgX_F, gX_one, abs_of_nonneg (by norm_num : (0 : ℝ) ≤ 1 / 5)]
      norm_num

/-- The raw Newton update from the head of scenario X: the probe at 11
gives a zero finite-difference slope, replaced by 0.01, hence the raw
update `1 - (1/5) / 0.01 = -19`. -/
lemma cfgX_raw : newtonRaw cfgX 0 1 1 1 ⟨1, 1 / 5, 1, 13 / 10, 0⟩ = -19 := by
  unfold newtonRaw
  dsimp only
  rw [cfgX_F, show (1 : ℝ) + 10 = 11 by norm_num, gX_eleven]
  norm_num

/-- The single Newton step of scenario X: the raw update −19 falls below
ambient, so the fallback `max (0.2 * 100) (1.5 * 0) = 20` is taken and
the damping factor is reduced to 0.95. -/
lemma cfgX_step :
    newtonStep cfgX 0 1 1 1 ⟨1, 1 / 5, 1, 13 / 10, 0⟩ =
      ⟨20, 1 / 20, 1 - 0.05, 13 / 10, 1⟩ := by
  have hmax : max (0.2 * cfgX.ptank) (1.5 * cfgX.pamb) = 20 := by
    show max (0.2 * (100 : ℝ)) (1.5 * 0) = 20
    rw [show (0.2 * (100 : ℝ)) = 20 by norm_num, show (1.5 * (0 : ℝ)) = 0 by norm_num]
    exact max_eq_left (by norm_num)
  have hPg : (calculatePerformance cfgX 0 1 1 20 (13 / 10)).gamma = 13 / 10 := by
    rw [show cfgX = scenCfg 1 gX 100 0 1 from rfl,
      scen_perf 1 gX 100 0 1 0 1 1 20 (13 / 10) rfl (by norm_num)]
  unfold newtonStep
  dsimp only
  rw [cfgX_raw, if_pos (show (-19 : ℝ) ≤ cfgX.pamb by norm_num [cfgX, scenCfg]),
    hmax]
  dsimp only
  rw [hPg, cfgX_F, gX_twenty]

/-- The full Newton run of scenario X: one iteration, ending at the
fallback pressure 20 with in-tolerance residual 1/20. -/
lemma cfgX_newton (γ : ℝ) :
    newtonFromStart cfgX 0 1 1 1 γ 1 = ⟨20, 1 / 20, 1 - 0.05, 13 / 10, 1⟩ := by
  have hP : (calculatePerformance cfgX 0 1 1 1 γ).gamma = 13 / 10 := by
    rw [show cfgX = scenCfg 1 gX 100 0 1 from rfl,
      scen_perf 1 gX 100 0 1 0 1 1 1 γ rfl (by norm_num)]
  unfold newtonFromStart
  rw [hP, cfgX_F 1 (13 / 10), gX_one]
  rw [show maxit = 999 + 1 from rfl,
    newtonLoop_go cfgX 0 1 1 1 999 ⟨1, 1 / 5, 1, 13 / 10, 0⟩
      ⟨by rw [abs_of_nonneg (by norm_num : (0 : ℝ) ≤ 1 / 5)]; norm_num,
        by norm_num [maxit]⟩,
    cfgX_step]
  apply newtonLoop_stop
  intro hcond
  have := hcond.1
  rw [abs_of_nonneg (by norm_num)] at this
  norm_num at this

/-- Scenario X: `get_pressure` performs exactly one iteration and
returns the fallback pressure 20. -/
lemma cfgX_GP (γ : ℝ) :
    getPressure cfgX 0 1 1 1 γ = some ⟨20, 1 / 20, 1, maxit, 13 / 10⟩ := by
  rw [getPressure_run cfgX 0 1 1 1 γ 1 (cfgX_SP γ) one_ne_zero, cfgX_newton γ]

end ScenarioX

section ScenarioZ

/-- A mock residual of constant magnitude 1 with a sign change: the
Newton loop can never meet the 0.1 tolerance. -/
noncomputable def gZ : ℝ → ℝ := fun pc => if pc < 50 then 1 else -1

lemma gZ_abs (pc : ℝ) : |gZ pc| = 1 := by
  unfold gZ
  split_ifs <;> norm_num

lemma gZ_ne_sentinel (pc : ℝ) : gZ pc ≠ 1e8 := by
  unfold gZ
  split_ifs <;> norm_num

lemma gZ_one : gZ 1 = 1 := by
  unfold gZ
  rw [if_pos (by norm_num)]

lemma gZ_hundred : gZ 100 = -1 := by
  unfold gZ
  rw [if_neg (by norm_num)]

/-- Scenario Z: `ptank = 100`, `pamb = 0`, residual `gZ`. -/
noncomputable def cfgZ : Config := scenCfg 1 gZ 100 0 1

lemma cfgZ_F (pc γ : ℝ) : pressureFun cfgZ 0 1 1 1 pc γ = gZ pc :=
  scen_F 1 gZ 100 0 1 0 1 1 pc γ rfl (by norm_num) (by norm_num)

/-- The starting scan of scenario Z returns the grid head 1 (all
samples have absolute residual 1; the head is the first minimum). -/
lemma cfgZ_SP (γ : ℝ) : startingPressure cfgZ 0 1 1 1 γ = some 1 := by
  refine startingPressure_first cfgZ 0 1 1 1 γ 1 (gridTailA ++ gridTailB)
    pcRange_100_0 ?_ ?_ ?_ ?_
  · intro pc _
    rw [cfgZ_F]
    exact gZ_ne_sentinel pc
  · intro pc _
    rw [cfgZ_F, cfgZ_F, gZ_abs, gZ_abs]
    norm_num
  · refine ⟨100, ?_, ?_⟩
    · show (100 : ℝ) ∈ pcRange 100 0
      rw [pcRange_100_0]
      exact List.mem_cons_of_mem _ (List.mem_append_right _ gridTailB_mem_100)
    · rw [cfgZ_F, gZ_hundred]
      norm_num
  · refine ⟨1, ?_, ?_⟩
    · show (1 : ℝ) ∈ pcRange 100 0
      rw [pcRange_100_0]
      exact List.mem_cons_self _ _
    · rw [cfgZ_F, gZ_one]
      norm_num

/-- Scenario Z: the loop exhausts all 1000 iterations. -/
lemma cfgZ_GP (γ : ℝ) :
    (getPressure cfgZ 0 1 1 1 γ).map GPResult.n_iter = some maxit := by
  rw [getPressure_run cfgZ 0 1 1 1 γ 1 (cfgZ_SP γ) one_ne_zero]
  rw [Option.map_some']
  have hF : ∀ pc γ', 0.1 < |pressureFun cfgZ 0 1 1 1 pc γ'| := by
    intro pc γ'
    rw [cfgZ_F, gZ_abs]
    norm_num
  have hrun := newtonLoop_forever cfgZ 0 1 1 1 hF maxit
    ⟨1,
      pressureFun cfgZ 0 1 1 1 1
        (calculatePerformance cfgZ 0 1 1 1 γ).gamma,
      1, (calculatePerformance cfgZ 0 1 1 1 γ).gamma, 0⟩
    (hF 1 _) (by dsimp only; omega)
  unfold newtonFromStart
  rw [hrun]
  simp

end ScenarioZ

section FlagLemmas

/-- Characterisation of the flag cascade when the iteration count is at
most the cap (the non-sentinel case). -/
lemma classifyFlag_spec (n m fp : ℕ) (hn : n ≤ m) :
    (classifyFlag n m fp = 10 ↔ False) ∧
    (classifyFlag n m fp = 2 ↔ n = m ∧ fp = 1) ∧
    (classifyFlag n m fp = 1 ↔ n = m ∧ fp ≠ 1) ∧
    (classifyFlag n m fp = -1 ↔ fp = 1 ∧ n ≠ m) ∧
    (classifyFlag n m fp = 0 ↔ fp ≠ 1 ∧ n ≠ m) := by
  unfold classifyFlag
  split_ifs with h1 h2 h3 h4 <;> refine ⟨?_, ?_, ?_, ?_, ?_⟩ <;> simp_all

/-- The sentinel record (`n_iter = maxit + 1`, chemistry flag 0) is
classified 10. -/
lemma classifyFlag_sentinel (m : ℕ) : classifyFlag (m + 1) m 0 = 10 := by
  unfold classifyFlag
  split_ifs <;> omega

/-- `get_pressure` propagates the scan's uncaught exception. -/
lemma getPressure_none (cfg : Config) (Ainj Aport At Ab gamma0 : ℝ)
    (h : startingPressure cfg Ainj Aport At Ab gamma0 = none) :
    getPressure cfg Ainj Aport At Ab gamma0 = none := by
  unfold getPressure
  rw [h]

end FlagLemmas

/-- Claim C3 (amended: the iteration cap in the code is `maxit = 1000`,
not 100): for every solve started from a nonzero starting guess,
`get_pressure` iterates exactly until `|Fpc| ≤ 0.1` or the iteration
count reaches the cap of 1000; the returned count never exceeds 1000. -/
theorem C3_cap_amended (cfg : Config) (Ainj Aport At Ab gamma0 pc0 : ℝ)
    (res : GPResult)
    (hsp : startingPressure cfg Ainj Aport At Ab gamma0 = some pc0)
    (h0 : pc0 ≠ 0)
    (hgp : getPressure cfg Ainj Aport At Ab gamma0 = some res) :
    res.n_iter ≤ maxit ∧ (|res.Fpc| ≤ 0.1 ∨ res.n_iter = maxit) ∧
      res.maxit = maxit := by
  rw [getPressure_run cfg Ainj Aport At Ab gamma0 pc0 hsp h0] at hgp
  obtain rfl := Option.some.inj hgp.symm
  have hle : (newtonFromStart cfg Ainj Aport At Ab gamma0 pc0).n_iter ≤ maxit := by
    unfold newtonFromStart
    have := newtonLoop_n_iter_le cfg Ainj Aport At Ab maxit
      ⟨pc0,
        pressureFun cfg Ainj Aport At Ab pc0
          (calculatePerformance cfg Ainj Aport Ab pc0 gamma0).gamma,
        1, (calculatePerformance cfg Ainj Aport Ab pc0 gamma0).gamma, 0⟩
    simpa using this
  refine ⟨hle, ?_, rfl⟩
  have hexit := newtonLoop_exit cfg Ainj Aport At Ab maxit
    ⟨pc0,
      pressureFun cfg Ainj Aport At Ab pc0
        (calculatePerformance cfg Ainj Aport Ab pc0 gamma0).gamma,
      1, (calculatePerformance cfg Ainj Aport Ab pc0 gamma0).gamma, 0⟩
    (by dsimp only; omega)
  rcases hexit with hF | hn
  · exact Or.inl hF
  · exact Or.inr (le_antisymm hle hn)

/-- Counterexample to claim C3 as stated: with the always-successful
mock oracle of scenario Z (residual of constant magnitude 1 with a sign
change), the solve starts from the nonzero guess 1 and returns iteration
count 1000, strictly exceeding the claimed cap of 100. -/
theorem C3_counterexample :
    startingPressure cfgZ 0 1 1 1 (13 / 10) = some 1 ∧ (1 : ℝ) ≠ 0 ∧
    (getPressure cfgZ 0 1 1 1 (13 / 10)).map GPResult.n_iter = some maxit ∧
    100 < maxit :=
  ⟨cfgZ_SP _, one_ne_zero, cfgZ_GP _, by norm_num [maxit]⟩

/-- Witness for C3 at scenario W: the starting guess 1 is nonzero, the
solve returns after 0 iterations with in-tolerance residual 1/20. -/
theorem C3_cap_amended_witness :
    (startingPressure cfgW 0 1 1 1 (13 / 10) = some 1 ∧ (1 : ℝ) ≠ 0 ∧
      getPressure cfgW 0 1 1 1 (13 / 10) = some ⟨1, 1 / 20, 0, maxit, 13 / 10⟩) ∧
    ((⟨1, 1 / 20, 0, maxit, 13 / 10⟩ : GPResult).n_iter ≤ maxit ∧
      (|(⟨1, 1 / 20, 0, maxit, 13 / 10⟩ : GPResult).Fpc| ≤ 0.1 ∨
        (⟨1, 1 / 20, 0, maxit, 13 / 10⟩ : GPResult).n_iter = maxit) ∧
      (⟨1, 1 / 20, 0, maxit, 13 / 10⟩ : GPResult).maxit = maxit) :=
  ⟨⟨cfgW_SP _, one_ne_zero, cfgW_GP _⟩,
    C3_cap_amended cfgW 0 1 1 1 (13 / 10) 1 _ (cfgW_SP _) one_ne_zero (cfgW_GP _)⟩

/-- Claim C4 (amended): under `0 ≤ pamb < 0.2 * ptank`, every chamber
pressure returned by `get_pressure` after at least one Newton iteration
lies strictly between ambient and tank pressure, except the sentinel
`pc = 0`; a starting guess returned with zero iterations is a scan grid
point and may sit on the boundary.  A raw Newton update at or below
ambient is replaced by `max (0.2 * ptank) (1.5 * pamb)` (not always
`≈ 1.5 * pamb`), one at or above tank pressure by `0.75 * ptank`, in
both cases reducing the damping factor by 0.05; an in-band update is
kept with the damping factor unchanged. -/
theorem C4_band_amended (cfg : Config) (Ainj Aport At Ab gamma0 : ℝ)
    (res : GPResult)
    (h0 : 0 ≤ cfg.pamb) (h1 : cfg.pamb < 0.2 * cfg.ptank)
    (hgp : getPressure cfg Ainj Aport At Ab gamma0 = some res)
    (hmoved : res.n_iter ≠ 0) :
    (res.pc = 0 ∨ (cfg.pamb < res.pc ∧ res.pc < cfg.ptank)) ∧
    (∀ st : NewtonState,
      (newtonRaw cfg Ainj Aport At Ab st ≤ cfg.pamb →
        (newtonStep cfg Ainj Aport At Ab st).pc =
          max (0.2 * cfg.ptank) (1.5 * cfg.pamb) ∧
        (newtonStep cfg Ainj Aport At Ab st).k = st.k - 0.05) ∧
      (¬(newtonRaw cfg Ainj Aport At Ab st ≤ cfg.pamb) →
        cfg.ptank ≤ newtonRaw cfg Ainj Aport At Ab st →
        (newtonStep cfg Ainj Aport At Ab st).pc = 0.75 * cfg.ptank ∧
        (newtonStep cfg Ainj Aport At Ab st).k = st.k - 0.05) ∧
      (¬(newtonRaw cfg Ainj Aport At Ab st ≤ cfg.pamb) →
        ¬(cfg.ptank ≤ newtonRaw cfg Ainj Aport At Ab st) →
        (newtonStep cfg Ainj Aport At Ab st).pc =
          newtonRaw cfg Ainj Aport At Ab st ∧
        (newtonStep cfg Ainj Aport At Ab st).k = st.k)) := by
  constructor
  · rcases hsp : startingPressure cfg Ainj Aport At Ab gamma0 with _ | pc0
    · rw [getPressure_none cfg Ainj Aport At Ab gamma0 hsp] at hgp
      exact absurd hgp (by simp)
    · by_cases hz : pc0 = 0
      · subst hz
        rw [getPressure_sentinel cfg Ainj Aport At Ab gamma0 hsp] at hgp
        obtain rfl := Option.some.inj hgp.symm
        exact Or.inl rfl
      · rw [getPressure_run cfg Ainj Aport At Ab gamma0 pc0 hsp hz] at hgp
        obtain rfl := Option.some.inj hgp.symm
        refine Or.inr ?_
        unfold newtonFromStart at hmoved ⊢
        exact newtonLoop_moved_band cfg Ainj Aport At Ab h0 h1 maxit _ hmoved
  · intro st
    refine ⟨fun hlo => ?_, fun hlo hhi => ?_, fun hlo hhi => ?_⟩
    · unfold newtonStep
      dsimp only
      rw [if_pos hlo]
      exact ⟨rfl, rfl⟩
    · unfold newtonStep
      dsimp only
      rw [if_neg hlo, if_pos hhi]
      exact ⟨rfl, rfl⟩
    · unfold newtonStep
      dsimp only
      rw [if_neg hlo, if_neg hhi]
      exact ⟨rfl, rfl⟩

/-- Counterexample to claim C4 as stated: in scenario W with ambient
pressure 1 the scan grid starts at `pamb` itself, the residual there is
already within tolerance, and `get_pressure` returns `pc = 1 = pamb` —
not strictly between ambient and tank pressure, and not the sentinel 0. -/
theorem C4_counterexample :
    getPressure cfgW1 0 1 1 1 (13 / 10) = some ⟨1, 1 / 20, 0, maxit, 13 / 10⟩ ∧
    (⟨1, 1 / 20, 0, maxit, 13 / 10⟩ : GPResult).pc ≠ 0 ∧
    ¬(cfgW1.pamb < (⟨1, 1 / 20, 0, maxit, 13 / 10⟩ : GPResult).pc) :=
  ⟨cfgW1_GP _, by norm_num, by
    show ¬((1 : ℝ) < 1)
    norm_num⟩

/-- Witness for C4 at scenario X: one Newton iteration runs (the raw
update −19 leaves the band and is replaced by the fallback 20), and the
returned pressure 20 lies strictly between ambient 0 and tank 100. -/
theorem C4_band_amended_witness :
    (0 ≤ cfgX.pamb ∧ cfgX.pamb < 0.2 * cfgX.ptank ∧
      getPressure cfgX 0 1 1 1 (13 / 10) = some ⟨20, 1 / 20, 1, maxit, 13 / 10⟩ ∧
      (⟨20, 1 / 20, 1, maxit, 13 / 10⟩ : GPResult).n_iter ≠ 0) ∧
    (((⟨20, 1 / 20, 1, maxit, 13 / 10⟩ : GPResult).pc = 0 ∨
      (cfgX.pamb < (⟨20, 1 / 20, 1, maxit, 13 / 10⟩ : GPResult).pc ∧
        (⟨20, 1 / 20, 1, maxit, 13 / 10⟩ : GPResult).pc < cfgX.ptank)) ∧
    (∀ st : NewtonState,
      (newtonRaw cfgX 0 1 1 1 st ≤ cfgX.pamb →
        (newtonStep cfgX 0 1 1 1 st).pc =
          max (0.2 * cfgX.ptank) (1.5 * cfgX.pamb) ∧
        (newtonStep cfgX 0 1 1 1 st).k = st.k - 0.05) ∧
      (¬(newtonRaw cfgX 0 1 1 1 st ≤ cfgX.pamb) →
        cfgX.ptank ≤ newtonRaw cfgX 0 1 1 1 st →
        (newtonStep cfgX 0 1 1 1 st).pc = 0.75 * cfgX.ptank ∧
        (newtonStep cfgX 0 1 1 1 st).k = st.k - 0.05) ∧
      (¬(newtonRaw cfgX 0 1 1 1 st ≤ cfgX.pamb) →
        ¬(cfgX.ptank ≤ newtonRaw cfgX 0 1 1 1 st) →
        (newtonStep cfgX 0 1 1 1 st).pc = newtonRaw cfgX 0 1 1 1 st ∧
        (newtonStep cfgX 0 1 1 1 st).k = st.k))) :=
  ⟨⟨le_refl _, by norm_num [cfgX, scenCfg], cfgX_GP _, by norm_num⟩,
    C4_band_amended cfgX 0 1 1 1 (13 / 10) _ (le_refl _)
      (by norm_num [cfgX, scenCfg]) (cfgX_GP _) (by norm_num)⟩

section GridPositivity

/-- Every `linspace` sample between two positive endpoints is positive
(each sample is a convex combination of the endpoints). -/
lemma linspace_pos {a b : ℝ} (ha : 0 < a) (hb : 0 < b) :
    ∀ x ∈ linspace a b 100, 0 < x := by
  intro x hx
  unfold linspace at hx
  obtain ⟨i, hi, rfl⟩ := List.mem_map.mp hx
  have hi' : i < 100 := List.mem_range.mp hi
  have h0 : (0 : ℝ) ≤ (i : ℝ) := Nat.cast_nonneg i
  have h99 : (i : ℝ) ≤ 99 := by exact_mod_cast Nat.lt_succ_iff.mp hi'
  have hc : ((100 : ℕ) : ℝ) - 1 = 99 := by norm_num
  rw [hc]
  rcases le_or_lt a b with hab | hab
  · nlinarith [mul_nonneg h0 (sub_nonneg.mpr hab)]
  · nlinarith [mul_le_mul_of_nonneg_right h99 (sub_pos.mpr hab).le]

/-- Every scan grid point is positive when the tank pressure is. -/
lemma pcRange_pos (ptank pamb : ℝ) (hpt : 0 < ptank) :
    ∀ x ∈ pcRange ptank pamb, 0 < x := by
  intro x hx
  unfold pcRange at hx
  split_ifs at hx with hpamb
  · rcases List.mem_append.mp hx with h | h
    · exact linspace_pos one_pos (by nlinarith) x h
    · exact linspace_pos (by nlinarith) hpt x (List.mem_of_mem_drop h)
  · have hpamb' : 0 < pamb := lt_of_not_le hpamb
    rcases List.mem_append.mp hx with h | h
    · exact linspace_pos hpamb' (by nlinarith) x h
    · exact linspace_pos (by nlinarith) hpt x (List.mem_of_mem_drop h)

/-- The tank pressure itself is the last sample of the scan grid. -/
lemma ptank_mem_pcRange (ptank pamb : ℝ) : ptank ∈ pcRange ptank pamb := by
  rw [pcRange_cons]
  refine List.mem_cons_of_mem _ (List.mem_append_right _ ?_)
  refine List.mem_map.mpr ⟨98, List.mem_range.mpr (by norm_num), ?_⟩
  push_cast
  ring

end GridPositivity

/-- Claim C2 (amended: the scan grid starts at `pamb` itself whenever
`pamb > 0` — not at `max(pamb, 1 Pa)` — and extends all the way to the
tank pressure, not `~0.9` of it): the grid is fixed and deterministic,
with its head at `1` (when `pamb ≤ 0`) or `pamb`; sentinel samples are
discarded; given a positive tank pressure and a nonempty survivor set,
the scan returns 0 exactly when the surviving residuals are
single-signed, and otherwise returns the surviving trial pressure of
first minimal `|Fpc|`. -/
theorem C2_scan_amended (cfg : Config) (Ainj Aport At Ab gamma0 : ℝ)
    (hpt : 0 < cfg.ptank)
    (hne : scanSurvivors cfg Ainj Aport At Ab gamma0 ≠ []) :
    (pcRange cfg.ptank cfg.pamb).head? =
      some (if cfg.pamb ≤ 0 then 1 else cfg.pamb) ∧
    (startingPressure cfg Ainj Aport At Ab gamma0 = some 0 ↔
      ((∀ q ∈ scanSurvivors cfg Ainj Aport At Ab gamma0, |q.2| = q.2) ∨
        (∀ q ∈ scanSurvivors cfg Ainj Aport At Ab gamma0, -|q.2| = q.2))) ∧
    (¬((∀ q ∈ scanSurvivors cfg Ainj Aport At Ab gamma0, |q.2| = q.2) ∨
        (∀ q ∈ scanSurvivors cfg Ainj Aport At Ab gamma0, -|q.2| = q.2)) →
      ∃ q ∈ scanSurvivors cfg Ainj Aport At Ab gamma0,
        startingPressure cfg Ainj Aport At Ab gamma0 = some q.1 ∧
        ∀ p ∈ scanSurvivors cfg Ainj Aport At Ab gamma0, |q.2| ≤ |p.2|) := by
  have hhead : (pcRange cfg.ptank cfg.pamb).head? =
      some (if cfg.pamb ≤ 0 then 1 else cfg.pamb) := by
    rw [pcRange_cons]
    rfl
  have hmempos : ∀ q ∈ scanSurvivors cfg Ainj Aport At Ab gamma0, 0 < q.1 := by
    intro q hq
    have hq' := List.mem_of_mem_filter hq
    obtain ⟨pc, hpc, rfl⟩ := List.mem_map.mp hq'
    exact pcRange_pos cfg.ptank cfg.pamb hpt pc hpc
  obtain ⟨b, t, hbt⟩ := List.exists_cons_of_ne_nil hne
  have hbmem : ∀ q ∈ b :: t, 0 < q.1 := by
    rw [← hbt]
    exact hmempos
  refine ⟨hhead, ?_, ?_⟩
  · unfold startingPressure
    rw [hbt]
    dsimp only
    by_cases hc : (∀ q ∈ b :: t, |q.2| = q.2) ∨ (∀ q ∈ b :: t, -|q.2| = q.2)
    · rw [if_pos hc]
      exact iff_of_true rfl hc
    · rw [if_neg hc]
      constructor
      · intro hzero
        have hbest := pickMin_eq_or_mem t b
        have hmem : pickMin b t ∈ b :: t := by
          rcases hbest with h | h
          · rw [h]
            exact List.mem_cons_self _ _
          · exact List.mem_cons_of_mem _ h
        have hpos := hbmem _ hmem
        have := Option.some.inj hzero
        rw [this] at hpos
        exact absurd hpos (lt_irrefl 0)
      · intro hcc
        exact absurd hcc hc
  · intro hns
    unfold startingPressure
    rw [hbt]
    dsimp only
    rw [hbt] at hns
    rw [if_neg hns]
    have hbest := pickMin_eq_or_mem t b
    have hmem : pickMin b t ∈ b :: t := by
      rcases hbest with h | h
      · rw [h]
        exact List.mem_cons_self _ _
      · exact List.mem_cons_of_mem _ h
    refine ⟨pickMin b t, hmem, rfl, ?_⟩
    intro p hp
    obtain ⟨hb1, hb2⟩ := pickMin_le t b
    rcases List.mem_cons.mp hp with rfl | hp
    · exact hb1
    · exact hb2 p hp

/-- Counterexample to claim C2 as stated: with tank pressure 100 and
ambient pressure 1/2 the scan grid starts at `1/2`, not at
`max(1/2, 1 Pa) = 1`, and the grid reaches the full tank pressure 100,
beyond `0.9` of the tank pressure. -/
theorem C2_counterexample :
    (pcRange 100 (1 / 2)).head? = some (1 / 2) ∧ (1 / 2 : ℝ) < max (1 / 2) 1 ∧
    (100 : ℝ) ∈ pcRange 100 (1 / 2) ∧ (0.9 * 100 : ℝ) < 100 := by
  refine ⟨?_, ?_, ptank_mem_pcRange 100 (1 / 2), by norm_num⟩
  · rw [pcRange_cons, List.head?_cons, if_neg (by norm_num : ¬(1 / 2 : ℝ) ≤ 0)]
  · rw [max_eq_right (by norm_num : (1 / 2 : ℝ) ≤ 1)]
    norm_num

section ScenarioC

/-- Scenario C: the constant residual 5 — single-signed over the whole
grid, so the scan must return the sentinel 0. -/
noncomputable def cfgC : Config := scenCfg 1 (fun _ => 5) 100 0 1

lemma cfgC_F (pc γ : ℝ) : pressureFun cfgC 0 1 1 1 pc γ = 5 :=
  scen_F 1 (fun _ => 5) 100 0 1 0 1 1 pc γ rfl (by norm_num) (by norm_num)

/-- Every scan sample of scenario C survives the mask. -/
lemma cfgC_surv (γ : ℝ) :
    scanSurvivors cfgC 0 1 1 1 γ = scanPairs cfgC 0 1 1 1 γ :=
  scanSurvivors_all cfgC 0 1 1 1 γ (fun pc _ => by
    rw [cfgC_F]
    norm_num)

/-- The survivor list of scenario C is nonempty. -/
lemma cfgC_surv_ne (γ : ℝ) : scanSurvivors cfgC 0 1 1 1 γ ≠ [] := by
  rw [cfgC_surv]
  unfold scanPairs
  rw [show pcRange cfgC.ptank cfgC.pamb = 1 :: (gridTailA ++ gridTailB)
    from pcRange_100_0]
  simp

/-- The surviving residuals of scenario C are all nonnegative. -/
lemma cfgC_nonneg (γ : ℝ) :
    ∀ q ∈ scanSurvivors cfgC 0 1 1 1 γ, |q.2| = q.2 := by
  intro q hq
  have hq' := List.mem_of_mem_filter hq
  obtain ⟨pc, _, rfl⟩ := List.mem_map.mp hq'
  rw [cfgC_F]
  norm_num

end ScenarioC

/-- Witness for C2 at scenario C: the survivor set is the whole grid and
its residuals are single-signed (constant 5), so the scan returns the
sentinel 0. -/
theorem C2_scan_amended_witness :
    ((0 : ℝ) < cfgC.ptank ∧ scanSurvivors cfgC 0 1 1 1 2 ≠ []) ∧
    startingPressure cfgC 0 1 1 1 2 = some 0 :=
  ⟨⟨by norm_num [cfgC, scenCfg], cfgC_surv_ne 2⟩,
    (C2_scan_amended cfgC 0 1 1 1 2 (by norm_num [cfgC, scenCfg])
      (cfgC_surv_ne 2)).2.1.mpr (Or.inl (cfgC_nonneg 2))⟩

/-- An equilibrium oracle that always succeeds with unit outputs. -/
def eqAll1 : EqOracle := fun _ _ _ => .ok ⟨1, 1, 1, 1, 1⟩

/-- Claim C5 (amended: only an exactly-zero fuel mass flow is guarded —
the `ZeroDivisionError` branch; a strictly negative fuel flow is not):
whenever the computed `mdot_fuel` is zero, the flag is set, `MR` is
forced to 0, and the equilibrium oracle is never consulted (the result
is identical for every oracle). -/
theorem C5_zero_fuel_guard (cfg : Config) (Ainj Aport Ab pc gamma0 : ℝ)
    (h : (calculatePerformance cfg Ainj Aport Ab pc gamma0).mdot_fuel = 0) :
    (calculatePerformance cfg Ainj Aport Ab pc gamma0).flag = 1 ∧
    (calculatePerformance cfg Ainj Aport Ab pc gamma0).MR = 0 ∧
    ∀ eqo2 : EqOracle,
      calculatePerformance
        ⟨cfg.po, eqo2, cfg.lineloss, cfg.eps, cfg.ptank, cfg.Ttank, cfg.CD,
          cfg.a, cfg.n, cfg.rho_fuel, cfg.pamb⟩ Ainj Aport Ab pc gamma0 =
      calculatePerformance cfg Ainj Aport Ab pc gamma0 := by
  unfold calculatePerformance at h ⊢
  dsimp only at h ⊢
  rw [if_pos h]
  refine ⟨rfl, rfl, fun eqo2 => ?_⟩
  rw [if_pos h]

/-- Parameter set for the C5 witness: regression coefficient `a = 0`
forces a fuel mass flow of exactly zero. -/
noncomputable def cfg5 : Config := ⟨onesPO, eqAll1, 0, .num 2, 1, 1, 1, 0, 0, 1, 0⟩

lemma cfg5_mdot_fuel : (calculatePerformance cfg5 0 1 1 3 1).mdot_fuel = 0 := by
  unfold calculatePerformance cfg5
  dsimp only
  ring

/-- Witness for C5: with `a = 0` the fuel flow is zero, the flag is set,
`MR = 0`, and the outcome is oracle-independent. -/
theorem C5_zero_fuel_guard_witness :
    (calculatePerformance cfg5 0 1 1 3 1).mdot_fuel = 0 ∧
    ((calculatePerformance cfg5 0 1 1 3 1).flag = 1 ∧
      (calculatePerformance cfg5 0 1 1 3 1).MR = 0 ∧
      ∀ eqo2 : EqOracle,
        calculatePerformance
          ⟨cfg5.po, eqo2, cfg5.lineloss, cfg5.eps, cfg5.ptank, cfg5.Ttank,
            cfg5.CD, cfg5.a, cfg5.n, cfg5.rho_fuel, cfg5.pamb⟩ 0 1 1 3 1 =
        calculatePerformance cfg5 0 1 1 3 1) :=
  ⟨cfg5_mdot_fuel, C5_zero_fuel_guard cfg5 0 1 1 3 1 cfg5_mdot_fuel⟩

/-- Parameter set for the C5 counterexample: fuel density −1 makes the
computed fuel mass flow strictly negative. -/
noncomputable def cfg5n : Config :=
  ⟨onesPO, eqAll1, 0, .num 2, 5 / 2, 1, 1, 1, 0, -1, 0⟩

/-- The injector flux at the counterexample state: pure liquid regime,
`sqrt (2 * 1 * (1/2)) = 1`. -/
lemma cfg5n_massflow : massflow onesPO (5 / 2 - 0) 2 1 1 = 1 := by
  unfold massflow spiFlux
  dsimp only [onesPO]
  rw [if_pos (by norm_num : (2 : ℝ) < 5 / 2 - 0), if_neg (by norm_num : ¬((2 : ℝ) < 1))]
  rw [show (2 * 1 * ((5 / 2 : ℝ) - 0 - 2)) = 1 by norm_num, Real.sqrt_one]
  norm_num

/-- Counterexample to claim C5 as stated: with fuel density −1 the
computed fuel mass flow is −1 (zero or negative in the claim's sense),
yet the chemistry flag stays 0, `MR = −1 ≠ 0`, and the oracle is
consulted — the code only guards the exactly-zero case. -/
theorem C5_counterexample :
    (calculatePerformance cfg5n 1 1 1 2 1).mdot_fuel = -1 ∧
    (calculatePerformance cfg5n 1 1 1 2 1).flag = 0 ∧
    (calculatePerformance cfg5n 1 1 1 2 1).MR = -1 := by
  unfold calculatePerformance cfg5n
  dsimp only [eqAll1]
  rw [cfg5n_massflow]
  refine ⟨?_, ?_, ?_⟩ <;> norm_num [Real.rpow_zero]

section FailingOracle

variable (cfg : Config) (Ainj Aport At Ab pc gamma0 : ℝ)

/-- Under an always-failing equilibrium oracle every performance
evaluation is flagged. -/
lemma fail_flag (hfail : ∀ x y z, cfg.eqo x y z = .error ()) :
    (calculatePerformance cfg Ainj Aport Ab pc gamma0).flag = 1 := by
  unfold calculatePerformance
  dsimp only
  split_ifs with h
  · rfl
  · rw [hfail]

/-- Under an always-failing oracle every residual sample is the
sentinel. -/
lemma fail_F (hfail : ∀ x y z, cfg.eqo x y z = .error ()) :
    pressureFun cfg Ainj Aport At Ab pc gamma0 = 1e8 := by
  unfold pressureFun
  dsimp only
  rw [fail_flag cfg Ainj Aport Ab pc gamma0 hfail]
  norm_num

/-- Under an always-failing oracle the scan masks out every sample and
`np.argmin` of the empty array raises: `starting_pressure` returns
`none`. -/
lemma fail_SP (hfail : ∀ x y z, cfg.eqo x y z = .error ()) :
    startingPressure cfg Ainj Aport At Ab gamma0 = none := by
  have hsurv : scanSurvivors cfg Ainj Aport At Ab gamma0 = [] := by
    unfold scanSurvivors
    rw [List.filter_eq_nil_iff]
    intro q hq
    obtain ⟨x, _, rfl⟩ := List.mem_map.mp hq
    simp [fail_F cfg Ainj Aport At Ab x gamma0 hfail]
  unfold startingPressure
  rw [hsurv]

end FailingOracle

/-- Claim C6 (the claim is right, the code is wrong): if the
equilibrium oracle fails at every trial pressure, every residual sample
is the sentinel, the mask empties the scan, and `np.argmin` of the
empty array raises an uncaught `ValueError` inside `starting_pressure`;
the exception propagates through `get_pressure` into
`full_range_simulation`, which aborts (returns `none`) instead of
recording a flag in `{-1, 2}` for every grid point. -/
theorem C6_sweep_aborts (cfg : Config) (gamma0 d i l : ℝ) (ds is2 ls : List ℝ)
    (hfail : ∀ x y z, cfg.eqo x y z = Except.error ()) :
    startingPressure cfg (0.25 * Real.pi * i ^ 2) (0.25 * Real.pi * d ^ 2)
      (0.25 * Real.pi * (1 : ℝ) ^ 2) (Real.pi * d * l) gamma0 = none ∧
    fullRangeSimulation cfg (d :: ds) (i :: is2) (l :: ls) gamma0 = none := by
  refine ⟨fail_SP cfg _ _ _ _ gamma0 hfail, ?_⟩
  have hrest : tripleGrid (d :: ds) (i :: is2) (l :: ls) =
      (d, i, l) :: ((ls.map fun l' => (d, i, l')) ++
        ((is2.flatMap fun i' => (l :: ls).map fun l' => (d, i', l')) ++
          (ds.flatMap fun d' =>
            (i :: is2).flatMap fun i' => (l :: ls).map fun l' => (d', i', l')))) := by
    unfold tripleGrid
    rw [List.flatMap_cons, List.flatMap_cons, List.map_cons, List.cons_append,
      List.cons_append]
    simp [List.append_assoc]
  unfold fullRangeSimulation
  rw [hrest]
  have hsw : sweepPoint cfg gamma0 d i l = none := by
    unfold sweepPoint
    dsimp only
    rw [getPressure_none cfg _ _ _ _ gamma0 (fail_SP cfg _ _ _ _ gamma0 hfail)]
  unfold runSweep
  rw [hsw]

/-- Witness for C6: a concrete always-failing oracle with concrete
ranges; the sweep aborts. -/
theorem C6_sweep_aborts_witness :
    startingPressure ⟨onesPO, fun _ _ _ => .error (), 0, .num 2, 100, 288, 1, 1, 0, 1, 0⟩
      (0.25 * Real.pi * (1 : ℝ) ^ 2) (0.25 * Real.pi * (4 : ℝ) ^ 2)
      (0.25 * Real.pi * (1 : ℝ) ^ 2) (Real.pi * 4 * 9) (13 / 10) = none ∧
    fullRangeSimulation ⟨onesPO, fun _ _ _ => .error (), 0, .num 2, 100, 288, 1, 1, 0, 1, 0⟩
      [4] [1] [9] (13 / 10) = none :=
  C6_sweep_aborts ⟨onesPO, fun _ _ _ => .error (), 0, .num 2, 100, 288, 1, 1, 0, 1, 0⟩
    (13 / 10) 4 1 9 [] [] [] (fun _ _ _ => rfl)

/-- Claim C7: for every grid point of the sweep, the recorded flag is 10
exactly when the starting scan returned the sentinel 0; otherwise it is
2 exactly when the iteration cap was exhausted and the final performance
evaluation flagged chemistry failure, 1 exactly when the cap was
exhausted without a chemistry flag, −1 exactly when the chemistry flag
is set without cap exhaustion, and 0 otherwise. -/
theorem C7_flag_classification (cfg : Config) (gamma0 Dport Dinj Lc : ℝ)
    (rec : SweepRecord) (g2 : ℝ)
    (h : sweepPoint cfg gamma0 Dport Dinj Lc = some (rec, g2)) :
    (rec.flag = 10 ↔
      startingPressure cfg (0.25 * Real.pi * Dinj ^ 2) (0.25 * Real.pi * Dport ^ 2)
        (0.25 * Real.pi * (1 : ℝ) ^ 2) (Real.pi * Dport * Lc) gamma0 = some 0) ∧
    (rec.flag = 2 ↔ rec.res.n_iter = maxit ∧ recPerfFlag rec = 1) ∧
    (rec.flag = 1 ↔ rec.res.n_iter = maxit ∧ recPerfFlag rec ≠ 1) ∧
    (rec.flag = -1 ↔ recPerfFlag rec = 1 ∧ rec.res.n_iter ≠ maxit) ∧
    (rec.flag = 0 ↔ recPerfFlag rec ≠ 1 ∧ rec.res.n_iter ≠ maxit ∧
      rec.res.n_iter ≠ maxit + 1) := by
  unfold sweepPoint at h
  dsimp only at h
  set A1 := 0.25 * Real.pi * Dinj ^ 2 with hA1
  set A2 := 0.25 * Real.pi * Dport ^ 2 with hA2
  set A3 := 0.25 * Real.pi * (1 : ℝ) ^ 2 with hA3
  set A4 := Real.pi * Dport * Lc with hA4
  rcases hsp : startingPressure cfg A1 A2 A3 A4 gamma0 with _ | pc0
  · rw [getPressure_none cfg A1 A2 A3 A4 gamma0 hsp] at h
    exact absurd h (by simp)
  · by_cases hz : pc0 = 0
    · subst hz
      rw [getPressure_sentinel cfg A1 A2 A3 A4 gamma0 hsp] at h
      dsimp only at h
      rw [if_neg (by simp)] at h
      simp only [Option.some.injEq, Prod.mk.injEq] at h
      obtain ⟨h1, _⟩ := h
      subst h1
      refine ⟨?_, ?_, ?_, ?_, ?_⟩ <;>
        simp [classifyFlag_sentinel, recPerfFlag, hsp, maxit]
    · rw [getPressure_run cfg A1 A2 A3 A4 gamma0 pc0 hsp hz] at h
      dsimp only at h
      have hle : (newtonFromStart cfg A1 A2 A3 A4 gamma0 pc0).n_iter ≤ maxit := by
        unfold newtonFromStart
        have := newtonLoop_n_iter_le cfg A1 A2 A3 A4 maxit
          ⟨pc0,
            pressureFun cfg A1 A2 A3 A4 pc0
              (calculatePerformance cfg A1 A2 A4 pc0 gamma0).gamma,
            1, (calculatePerformance cfg A1 A2 A4 pc0 gamma0).gamma, 0⟩
        simpa using this
      have hzero : startingPressure cfg A1 A2 A3 A4 gamma0 = some 0 ↔ False := by
        rw [hsp]
        simp [hz]
      by_cases hpc : (newtonFromStart cfg A1 A2 A3 A4 gamma0 pc0).pc ≠ 0
      · rw [if_pos hpc] at h
        simp only [Option.some.injEq, Prod.mk.injEq] at h
        obtain ⟨h1, _⟩ := h
        subst h1
        have hspec := classifyFlag_spec
          (newtonFromStart cfg A1 A2 A3 A4 gamma0 pc0).n_iter maxit
          (calculatePerformance cfg A1 A2 A4
            (newtonFromStart cfg A1 A2 A3 A4 gamma0 pc0).pc
            (newtonFromStart cfg A1 A2 A3 A4 gamma0 pc0).gamma0).flag hle
        obtain ⟨hs10, hs2, hs1, hsm1, hs0⟩ := hspec
        refine ⟨?_, ?_, ?_, ?_, ?_⟩
        · exact iff_of_false (fun hf => hs10.mp hf)
            (fun hr => hz (Option.some.inj hr))
        · simpa [recPerfFlag] using hs2
        · simpa [recPerfFlag] using hs1
        · simpa [recPerfFlag] using hsm1
        · have hne : (newtonFromStart cfg A1 A2 A3 A4 gamma0 pc0).n_iter ≠
              maxit + 1 := by omega
          simp only [recPerfFlag]
          simpa [hne] using hs0
      · rw [if_neg hpc] at h
        simp only [Option.some.injEq, Prod.mk.injEq] at h
        obtain ⟨h1, _⟩ := h
        subst h1
        have hspec := classifyFlag_spec
          (newtonFromStart cfg A1 A2 A3 A4 gamma0 pc0).n_iter maxit 0 hle
        obtain ⟨hs10, hs2, hs1, hsm1, hs0⟩ := hspec
        refine ⟨?_, ?_, ?_, ?_, ?_⟩
        · exact iff_of_false (fun hf => hs10.mp hf)
            (fun hr => hz (Option.some.inj hr))
        · simpa [recPerfFlag] using hs2
        · simpa [recPerfFlag] using hs1
        · simpa [recPerfFlag] using hsm1
        · have hne : (newtonFromStart cfg A1 A2 A3 A4 gamma0 pc0).n_iter ≠
              maxit + 1 := by omega
          simp only [recPerfFlag]
          simpa [hne] using hs0

section ScenarioS

/-- Scenario S: constant residual 5 with the geometry produced by the
sweep driver at `(Dport, Dinj, Lc) = (1, 0, 1)` (so the injection area
is 0 and the fuel density `1/pi` makes the fuel flow 1). -/
noncomputable def cfgS : Config :=
  scenCfg (0.25 * Real.pi * (1 : ℝ) ^ 2) (fun _ => 5) 100 0 (Real.pi)⁻¹

lemma cfgS_F (pc γ : ℝ) :
    pressureFun cfgS (0.25 * Real.pi * (0 : ℝ) ^ 2) (0.25 * Real.pi * (1 : ℝ) ^ 2)
      (0.25 * Real.pi * (1 : ℝ) ^ 2) (Real.pi * 1 * 1) pc γ = 5 :=
  scen_F (0.25 * Real.pi * (1 : ℝ) ^ 2) (fun _ => 5) 100 0 (Real.pi)⁻¹
    (0.25 * Real.pi * (0 : ℝ) ^ 2) (0.25 * Real.pi * (1 : ℝ) ^ 2) (Real.pi * 1 * 1)
    pc γ (by norm_num)
    (by rw [mul_one, mul_one]; exact inv_mul_cancel₀ Real.pi_ne_zero)
    (by positivity)

/-- The starting scan of scenario S returns the sentinel 0 (all
residuals are 5, hence single-signed). -/
lemma cfgS_SP (γ : ℝ) :
    startingPressure cfgS (0.25 * Real.pi * (0 : ℝ) ^ 2)
      (0.25 * Real.pi * (1 : ℝ) ^ 2) (0.25 * Real.pi * (1 : ℝ) ^ 2)
      (Real.pi * 1 * 1) γ = some 0 := by
  refine startingPressure_single_signed cfgS _ _ _ _ γ 1 (gridTailA ++ gridTailB)
    (show pcRange cfgS.ptank cfgS.pamb = _ from pcRange_100_0) ?_ ?_
  · intro pc _
    rw [cfgS_F]
    norm_num
  · left
    intro pc _
    rw [cfgS_F]
    exact abs_of_nonneg (by norm_num)

/-- Scenario S: the sweep records the no-bracketed-solution flag 10. -/
lemma cfgS_sweep (γ : ℝ) :
    sweepPoint cfgS γ 1 0 1 =
      some (⟨⟨0, 0, maxit + 1, maxit, γ⟩, none, 10⟩, γ) := by
  unfold sweepPoint
  dsimp only
  rw [getPressure_sentinel cfgS _ _ _ _ γ (cfgS_SP γ)]
  dsimp only
  rw [if_neg (by simp), classifyFlag_sentinel]

end ScenarioS

/-- Witness for C7 at scenario S: the scan returns the sentinel 0 and
the recorded flag is 10; the classification equivalences hold at this
record. -/
theorem C7_flag_classification_witness :
    sweepPoint cfgS 2 1 0 1 =
      some (⟨⟨0, 0, maxit + 1, maxit, 2⟩, none, 10⟩, 2) ∧
    (((⟨⟨0, 0, maxit + 1, maxit, 2⟩, none, 10⟩ : SweepRecord).flag = 10 ↔
      startingPressure cfgS (0.25 * Real.pi * (0 : ℝ) ^ 2)
        (0.25 * Real.pi * (1 : ℝ) ^ 2) (0.25 * Real.pi * (1 : ℝ) ^ 2)
        (Real.pi * 1 * 1) 2 = some 0) ∧
    ((⟨⟨0, 0, maxit + 1, maxit, 2⟩, none, 10⟩ : SweepRecord).flag = 2 ↔
      (⟨⟨0, 0, maxit + 1, maxit, 2⟩, none, 10⟩ : SweepRecord).res.n_iter = maxit ∧
      recPerfFlag ⟨⟨0, 0, maxit + 1, maxit, 2⟩, none, 10⟩ = 1) ∧
    ((⟨⟨0, 0, maxit + 1, maxit, 2⟩, none, 10⟩ : SweepRecord).flag = 1 ↔
      (⟨⟨0, 0, maxit + 1, maxit, 2⟩, none, 10⟩ : SweepRecord).res.n_iter = maxit ∧
      recPerfFlag ⟨⟨0, 0, maxit + 1, maxit, 2⟩, none, 10⟩ ≠ 1) ∧
    ((⟨⟨0, 0, maxit + 1, maxit, 2⟩, none, 10⟩ : SweepRecord).flag = -1 ↔
      recPerfFlag ⟨⟨0, 0, maxit + 1, maxit, 2⟩, none, 10⟩ = 1 ∧
      (⟨⟨0, 0, maxit + 1, maxit, 2⟩, none, 10⟩ : SweepRecord).res.n_iter ≠ maxit) ∧
    ((⟨⟨0, 0, maxit + 1, maxit, 2⟩, none, 10⟩ : SweepRecord).flag = 0 ↔
      recPerfFlag ⟨⟨0, 0, maxit + 1, maxit, 2⟩, none, 10⟩ ≠ 1 ∧
      (⟨⟨0, 0, maxit + 1, maxit, 2⟩, none, 10⟩ : SweepRecord).res.n_iter ≠ maxit ∧
      (⟨⟨0, 0, maxit + 1, maxit, 2⟩, none, 10⟩ : SweepRecord).res.n_iter ≠ maxit + 1)) :=
  ⟨cfgS_sweep 2, C7_flag_classification cfgS 2 1 0 1 _ 2 (cfgS_sweep 2)⟩

/-- Claim C1: for every parameter set and trial chamber pressure `pc`,
`pressure_fun` returns `mdot(pc) * cs(pc) / At - pc` when
`calculate_performance` reports flag 0, and exactly the sentinel `1e8`
when it reports a chemistry failure (flag 1); the flag is always one of
those two values. -/
theorem C1_pressure_fun_sentinel (cfg : Config) (Ainj Aport At Ab pc gamma0 : ℝ) :
    pressureFun cfg Ainj Aport At Ab pc gamma0 =
      (if (calculatePerformance cfg Ainj Aport Ab pc gamma0).flag = 0 then
        (calculatePerformance cfg Ainj Aport Ab pc gamma0).mdot *
          (calculatePerformance cfg Ainj Aport Ab pc gamma0).cs / At - pc
      else 1e8) ∧
    ((calculatePerformance cfg Ainj Aport Ab pc gamma0).flag = 0 ∨
      (calculatePerformance cfg Ainj Aport Ab pc gamma0).flag = 1) :=
  ⟨rfl, calculatePerformance_flag_cases cfg Ainj Aport Ab pc gamma0⟩

/-- Claim C10: in adapt expansion-ratio mode, for every gamma seed
`g > 1` and every `pamb`, `pc` with `pamb / pc` at or above the critical
pressure ratio `(2 / (g+1)) ^ (g / (g-1))`, the computed expansion ratio
is exactly 1, so the expansion ratio produced by `ER` in this regime is
never below 1. -/
theorem C10_adapt_subcritical_eps_one (cfg : Config)
    (Ainj Aport Ab pc gamma0 : ℝ) (heps : cfg.eps = .adapt)
    (_hg : 1 < gamma0)
    (hcrit : (2 / (gamma0 + 1)) ^ (gamma0 / (gamma0 - 1)) ≤ cfg.pamb / pc) :
    (calculatePerformance cfg Ainj Aport Ab pc gamma0).eps_out = 1 ∧
      ER gamma0 cfg.pamb pc = 1 ∧ 1 ≤ ER gamma0 cfg.pamb pc := by
  have hER : ER gamma0 cfg.pamb pc = 1 := by
    unfold ER
    rw [if_neg (not_lt.mpr hcrit)]
  refine ⟨?_, hER, le_of_eq hER.symm⟩
  dsimp only [calculatePerformance]
  rw [heps]
  exact hER

/-- Witness for C10 at `gamma0 = 2`, `pamb = pc = 1`: the critical ratio
is `(2/3)^2 = 4/9 ≤ 1`, and the computed expansion ratio is 1. -/
theorem C10_adapt_subcritical_eps_one_witness :
    (calculatePerformance
        ⟨onesPO, fun _ _ _ => .ok ⟨1, 1, 1, 1, 1⟩, 0, .adapt, 1, 1, 1, 1, 1, 1, 1⟩
        1 1 1 1 2).eps_out = 1 := by
  have hpow : ((2 / (2 + 1) : ℝ)) ^ ((2 : ℝ) / (2 - 1)) = (2 / 3 : ℝ) ^ (2 : ℕ) := by
    rw [show ((2 : ℝ) / (2 - 1)) = ((2 : ℕ) : ℝ) by norm_num, Real.rpow_natCast]
    norm_num
  refine (C10_adapt_subcritical_eps_one _ 1 1 1 1 2 rfl (by norm_num) ?_).1
  rw [hpow]
  norm_num

/-- Claim C8: `Injector.massflow` yields flux exactly 0 when `p1 ≤ p2`;
when `p1 > p2` and the saturation pressure `pv` at `T` exceeds `p2`, the
flux equals `(k * SPI + HEM) / (k + 1)` with
`k = sqrt ((p1 - p2) / (pv - p2))`; when `p1 > p2` and `pv ≤ p2`, the
flux is exactly the pure SPI value `CD * sqrt (2 * rho_liq_sat(T) * (p1 - p2))`. -/
theorem C8_injector_regimes (po : PropOracle) (p1 p2 T cD : ℝ) :
    (p1 ≤ p2 → massflow po p1 p2 T cD = 0) ∧
    (p2 < p1 → p2 < po.sat .press T 1 →
      massflow po p1 p2 T cD =
        (Real.sqrt ((p1 - p2) / (po.sat .press T 1 - p2)) * spiFlux po p1 p2 T cD +
            hemFlux po p1 p2 T cD) /
          (Real.sqrt ((p1 - p2) / (po.sat .press T 1 - p2)) + 1)) ∧
    (p2 < p1 → po.sat .press T 1 ≤ p2 →
      massflow po p1 p2 T cD = cD * Real.sqrt (2 * po.sat .density T 0 * (p1 - p2))) := by
  refine ⟨fun h => ?_, fun h1 h2 => ?_, fun h1 h2 => ?_⟩
  · unfold massflow
    rw [if_neg (not_lt.mpr h)]
  · unfold massflow
    rw [if_pos h1, if_pos h2, div_add_div_same]
  · unfold massflow
    rw [if_pos h1, if_neg (not_lt.mpr h2)]
    rfl

/-- Witness for C8 in the backflow regime: with `p1 = 1 ≤ p2 = 2` the
flux is exactly 0. -/
theorem C8_injector_regimes_witness :
    (1 : ℝ) ≤ 2 ∧ massflow onesPO 1 2 3 4 = 0 :=
  ⟨by norm_num, (C8_injector_regimes onesPO 1 2 3 4).1 (by norm_num)⟩

/-- Claim C9: when a single-phase `(P, T)` lookup is invalid, the model
substitutes the saturated boundary value (quality 0 for the upstream
enthalpy, quality 1 for the downstream enthalpy and density), and the
resulting mass flux depends only on the saturated table — the failure
never escapes `massflow` (which is a total function). -/
theorem C9_lookup_fallback (po : PropOracle) (p1 p2 T cD : ℝ)
    (h1 : po.single .enthalpy p1 T = .error ())
    (h2 : po.single .enthalpy p2 T = .error ())
    (h3 : po.single .density p2 T = .error ()) :
    lookupPT po .enthalpy p1 T 0 = po.sat .enthalpy T 0 ∧
    lookupPT po .enthalpy p2 T 1 = po.sat .enthalpy T 1 ∧
    lookupPT po .density p2 T 1 = po.sat .density T 1 ∧
    massflow po p1 p2 T cD =
      massflow ⟨fun _ _ _ => Except.error (), po.sat⟩ p1 p2 T cD := by
  have l1 : lookupPT po .enthalpy p1 T 0 = po.sat .enthalpy T 0 := by
    unfold lookupPT; rw [h1]
  have l2 : lookupPT po .enthalpy p2 T 1 = po.sat .enthalpy T 1 := by
    unfold lookupPT; rw [h2]
  have l3 : lookupPT po .density p2 T 1 = po.sat .density T 1 := by
    unfold lookupPT; rw [h3]
  refine ⟨l1, l2, l3, ?_⟩
  unfold massflow spiFlux hemFlux
  rw [l1, l2, l3]
  rfl

/-- Witness for C9: a property oracle whose single-phase lookups all
fail; the fallbacks hold and the flux agrees with the saturated-table
evaluation. -/
theorem C9_lookup_fallback_witness :
    lookupPT satOnlyPO .enthalpy 5 3 0 = satOnlyPO.sat .enthalpy 3 0 ∧
    lookupPT satOnlyPO .enthalpy 2 3 1 = satOnlyPO.sat .enthalpy 3 1 ∧
    lookupPT satOnlyPO .density 2 3 1 = satOnlyPO.sat .density 3 1 ∧
    massflow satOnlyPO 5 2 3 1 =
      massflow ⟨fun _ _ _ => Except.error (), satOnlyPO.sat⟩ 5 2 3 1 :=
  C9_lookup_fallback satOnlyPO 5 2 3 1 rfl rfl rfl

end HybridModels
